import Mathlib

/-!
Verification of the FOIA/RTI request-tracking core (deadline calculator,
request store, alert engine, response parser, redaction detector).

The embedding models the proleptic Gregorian timeline as `Nat`: day `0` is
2000-01-01 (a Saturday) and day `n + 1` is the calendar successor of day `n`.
Python `datetime.date` values become day numbers, `date.today()` becomes an
explicit `today` parameter, and text becomes `List Char` (`Str`), matching
Python's view of a string as a sequence of code points.
-/

namespace FoiaRti

abbrev Str := List Char

/-! ## Calendar model (shared by `deadlines.py` and the tracker's dates) -/

structure Ymd where
  y : Nat
  m : Nat
  d : Nat
deriving DecidableEq, Repr

/-- Gregorian leap-year rule, as Python's `calendar`/`datetime` use it. -/
def isLeap (y : Nat) : Bool := (y % 4 == 0 && y % 100 != 0) || y % 400 == 0

def daysInMonth (y m : Nat) : Nat :=
  if m == 2 then (if isLeap y then 29 else 28)
  else if m == 4 || m == 6 || m == 9 || m == 11 then 30
  else 31

/-- The next calendar day (`date + timedelta(days=1)` in `datetime`). -/
def succYmd (x : Ymd) : Ymd :=
  if x.d < daysInMonth x.y x.m then ⟨x.y, x.m, x.d + 1⟩
  else if x.m < 12 then ⟨x.y, x.m + 1, 1⟩
  else ⟨x.y + 1, 1, 1⟩

/-- Day number to calendar date: day 0 is 2000-01-01. -/
def ymd : Nat → Ymd
  | 0 => ⟨2000, 1, 1⟩
  | n + 1 => succYmd (ymd n)

def month (n : Nat) : Nat := (ymd n).m

def day (n : Nat) : Nat := (ymd n).d

/-- Python's `date.weekday()`: Monday = 0 … Sunday = 6.
2000-01-01 (day 0) was a Saturday, weekday 5. -/
def weekday (n : Nat) : Nat := (n + 5) % 7

/-- `_is_weekend` in `deadlines.py`: `d.weekday() >= 5`. -/
def is_weekend (n : Nat) : Bool := decide (5 ≤ weekday n)

/-! ## Holiday predicates (`deadlines.py`) -/

/-- `US_FEDERAL_HOLIDAYS_FIXED` membership test: `(d.month, d.day)` in the set. -/
def usFixedHoliday (m d : Nat) : Bool :=
  (m == 1 && d == 1) || (m == 6 && d == 19) || (m == 7 && d == 4) ||
  (m == 11 && d == 11) || (m == 12 && d == 25)

/-- `_is_us_federal_holiday`: the fixed set plus the floating Monday/Thursday rules. -/
def is_us_federal_holiday (n : Nat) : Bool :=
  usFixedHoliday (month n) (day n) ||
  (month n == 1 && weekday n == 0 && decide (15 ≤ day n) && decide (day n ≤ 21)) ||
  (month n == 2 && weekday n == 0 && decide (15 ≤ day n) && decide (day n ≤ 21)) ||
  (month n == 5 && weekday n == 0 && decide (25 ≤ day n)) ||
  (month n == 9 && weekday n == 0 && decide (day n ≤ 7)) ||
  (month n == 10 && weekday n == 0 && decide (8 ≤ day n) && decide (day n ≤ 14)) ||
  (month n == 11 && weekday n == 3 && decide (22 ≤ day n) && decide (day n ≤ 28))

/-- `UK_BANK_HOLIDAYS_FIXED` membership test. -/
def ukFixedHoliday (m d : Nat) : Bool :=
  (m == 1 && d == 1) || (m == 12 && d == 25) || (m == 12 && d == 26)

/-- `_is_uk_bank_holiday`: the fixed set plus the floating Monday rules. -/
def is_uk_bank_holiday (n : Nat) : Bool :=
  ukFixedHoliday (month n) (day n) ||
  (month n == 5 && weekday n == 0 && decide (day n ≤ 7)) ||
  (month n == 5 && weekday n == 0 && decide (25 ≤ day n)) ||
  (month n == 8 && weekday n == 0 && decide (25 ≤ day n))

/-- The three holiday calendars a rule's `holiday_fn` field can hold:
`_is_us_federal_holiday`, `_is_uk_bank_holiday`, or Python `None`. -/
inductive HolidayCal where
  | us
  | uk
  | noCal
deriving DecidableEq, Repr

/-- Interpret a rule's `holiday_fn`; `None` means no day is a holiday
(the `holiday_fn and holiday_fn(current)` guard is skipped). -/
def holidayFn : HolidayCal → Nat → Bool
  | .us, n => is_us_federal_holiday n
  | .uk, n => is_uk_bank_holiday n
  | .noCal, _ => false

/-- A day the `add_business_days` loop counts: not a weekend, not a holiday. -/
def isBusinessDay (cal : HolidayCal) (n : Nat) : Bool :=
  !(is_weekend n) && !(holidayFn cal n)

/-! ## `add_business_days` (`deadlines.py`)

The Python loop advances one calendar day at a time, skipping weekends and
holidays, and counts the non-skipped days.  Each counted day is therefore the
first business day strictly after the previous counted day; by
`exists_business_day` that day is always at most eleven days on, so the
bounded search below never exhausts its bound. -/

/-- Scan forward from `c` for the first business day, trying `fuel` days. -/
def nextBusinessDayGo (cal : HolidayCal) : Nat → Nat → Nat
  | 0, c => c
  | fuel + 1, c => if isBusinessDay cal c then c else nextBusinessDayGo cal fuel (c + 1)

/-- The first business day strictly after `n` (one counting step of the
`add_business_days` loop).  Eleven days of search always suffice. -/
def nextBusinessDay (cal : HolidayCal) (n : Nat) : Nat :=
  nextBusinessDayGo cal 11 (n + 1)

/-- `add_business_days(start, days, holiday_fn)`: count off `days` business
days, never counting the start date itself. -/
def add_business_days (cal : HolidayCal) (start : Nat) : Nat → Nat
  | 0 => start
  | days + 1 => add_business_days cal (nextBusinessDay cal start) days

/-- `add_calendar_days(start, days)`. -/
def add_calendar_days (start days : Nat) : Nat := start + days

/-- Business days in the half-open-from-the-left span `(s, e]`. -/
def businessDaysIoc (cal : HolidayCal) (s e : Nat) : Nat :=
  ((Finset.Ioc s e).filter (fun x => isBusinessDay cal x = true)).card

/-! ## Jurisdiction rules and the deadline calculator (`deadlines.py`) -/

inductive DayType where
  | business
  | calendar
deriving DecidableEq, Repr

/-- One entry of `JURISDICTION_RULES` (the `notes` strings are the Python
dict's documentation payload, kept as data). -/
structure Rule where
  initial_days : Nat
  day_type : DayType
  holiday_cal : HolidayCal
  extension_days : Nat
  extension_type : DayType
  notes : Str
deriving DecidableEq, Repr

def usFederalRule : Rule :=
  ⟨20, .business, .us, 10, .business,
    ("5 U.S.C. Section 552(a)(6)(A)(i): 20 business days. Extension of up to 10 " ++
     "additional business days under Section 552(a)(6)(B)(i) for " ++
     "\x27unusual circumstances.\x27").toList⟩

def indiaRule : Rule :=
  ⟨30, .calendar, .noCal, 0, .calendar,
    ("RTI Act Section 7(1): 30 days from receipt. If life/liberty at stake: " ++
     "48 hours. Transfer to another PIO: 5 days for transfer + 30 days.").toList⟩

def ukRule : Rule :=
  ⟨20, .business, .uk, 0, .business,
    ("FOIA 2000 Section 10(1): 20 working days (excludes weekends and bank " ++
     "holidays). No statutory extension, but the authority may need " ++
     "\x27reasonable\x27 additional time for public interest test under " ++
     "qualified exemptions (Section 10(3)).").toList⟩

def euRule : Rule :=
  ⟨15, .business, .noCal, 15, .business,
    ("Regulation 1049/2001 Article 7(1): 15 working days. Extension of 15 " ++
     "working days under Article 7(3) \x27in exceptional cases\x27 with " ++
     "reasons given.").toList⟩

/-- `JURISDICTION_RULES`, in the dict's insertion order. -/
def JURISDICTION_RULES : List (Str × Rule) :=
  [(("US-Federal").toList, usFederalRule),
   (("India").toList, indiaRule),
   (("UK").toList, ukRule),
   (("EU").toList, euRule)]

/-- The generic `US-State` fallback rule built inside `_get_rule`. -/
def usStateFallbackRule : Rule :=
  ⟨10, .business, .us, 0, .business,
    ("State deadlines vary. Check state-specific rules.").toList⟩

/-- `str.startswith` on our character-list strings. -/
def startsWithStr : Str → Str → Bool
  | _, [] => true
  | [], _ :: _ => false
  | c :: cs, p :: ps => c == p && startsWithStr cs ps

/-- `", ".join(self.rules.keys())` for the default rule table. -/
def knownJurisdictions : Str :=
  String.toList (String.intercalate ", " ["US-Federal", "India", "UK", "EU"])

/-- The `ValueError` message raised for an unknown jurisdiction. -/
def unknownJurisdictionMessage (jurisdiction : Str) : Str :=
  ("No deadline rules for jurisdiction \x27").toList ++ jurisdiction ++
    ("\x27. Known: ").toList ++ knownJurisdictions

/-- `DeadlineCalculator._get_rule` (default calculator, no custom rules):
exact table match, then the `US-State` prefix fallback, else `ValueError`. -/
def get_rule (jurisdiction : Str) : Except Str Rule :=
  match JURISDICTION_RULES.lookup jurisdiction with
  | some rule => .ok rule
  | none =>
    if startsWithStr jurisdiction (("US-State").toList) then .ok usStateFallbackRule
    else .error (unknownJurisdictionMessage jurisdiction)

/-- `DeadlineCalculator.calculate`: initial response deadline. -/
def calculate (jurisdiction : Str) (filed_date : Nat) : Except Str Nat :=
  match get_rule jurisdiction with
  | .error e => .error e
  | .ok rule =>
    match rule.day_type with
    | .business => .ok (add_business_days rule.holiday_cal filed_date rule.initial_days)
    | .calendar => .ok (add_calendar_days filed_date rule.initial_days)

/-- `DeadlineCalculator.calculate_extension`. -/
def calculate_extension (jurisdiction : Str) (original_deadline : Nat) :
    Except Str (Option Nat) :=
  match get_rule jurisdiction with
  | .error e => .error e
  | .ok rule =>
    if rule.extension_days == 0 then .ok none
    else
      match rule.extension_type with
      | .business =>
        .ok (some (add_business_days rule.holiday_cal original_deadline rule.extension_days))
      | .calendar => .ok (some (add_calendar_days original_deadline rule.extension_days))

/-! ## Request tracker (`tracker.py`)

`date.today()` is an explicit `today : Nat` parameter, and the SQLAlchemy
table is a `List FOIARequest`.  `datetime` timestamps (`date_created`) and
`date` columns alike are day numbers; only their ordering and arithmetic
matter to the verified operations. -/

inductive RequestStatus where
  | DRAFT
  | FILED
  | ACKNOWLEDGED
  | PROCESSING
  | EXTENDED
  | PARTIAL_RESPONSE
  | COMPLETE
  | DENIED
  | APPEALED
  | APPEAL_WON
  | APPEAL_DENIED
  | LITIGATION
  | WITHDRAWN
  | NO_RESPONSIVE_RECORDS
deriving DecidableEq, Repr

/-- The columns of the `foia_requests` table. -/
structure FOIARequest where
  id : Nat
  reference_id : Option Str := none
  agency : Str
  agency_key : Option Str := none
  jurisdiction : Str
  topic : Str
  date_created : Nat
  date_filed : Option Nat := none
  deadline : Option Nat := none
  date_acknowledged : Option Nat := none
  date_extended : Option Nat := none
  extended_deadline : Option Nat := none
  date_response : Option Nat := none
  status : RequestStatus := .DRAFT
  docs_received : Nat := 0
  pages_received : Nat := 0
  pages_withheld : Nat := 0
  exemptions_cited : Str := []
  filing_method : Option Str := none
  confirmation_number : Option Str := none
  assigned_analyst : Option Str := none
  fee_paid : Option Str := none
  fee_waiver_requested : Bool := true
  fee_waiver_granted : Option Bool := none
  request_text : Str := []
  response_summary : Str := []
  notes : Option Str := none
  appeal_filed : Bool := false
  appeal_date : Option Nat := none
  appeal_body : Option Str := none
  appeal_outcome : Option Str := none
deriving DecidableEq, Repr

/-- The terminal statuses `is_overdue` short-circuits on. -/
def terminalStatuses : List RequestStatus :=
  [.COMPLETE, .DENIED, .WITHDRAWN, .NO_RESPONSIVE_RECORDS]

/-- `self.extended_deadline or self.deadline`: `date` objects are always
truthy, so Python `or` here is an option-level orElse. -/
def effectiveDeadline (r : FOIARequest) : Option Nat :=
  match r.extended_deadline with
  | some e => some e
  | none => r.deadline

/-- `FOIARequest.is_overdue`, with `date.today()` passed in as `today`. -/
def is_overdue (today : Nat) (r : FOIARequest) : Bool :=
  if terminalStatuses.contains r.status then false
  else
    match effectiveDeadline r with
    | none => false
    | some e => decide (e < today)

/-- `FOIARequest.days_until_deadline`: `(effective_deadline - date.today()).days`. -/
def days_until_deadline (today : Nat) (r : FOIARequest) : Option Int :=
  match effectiveDeadline r with
  | none => none
  | some e => some ((e : Int) - (today : Int))

/-- `TrackerDB.get_overdue`: the SQL filter, written clause for clause —
status not in the terminal list, and either `extended_deadline` is set and
before today, or it is unset and a set `deadline` is before today. -/
def get_overdue (today : Nat) (db : List FOIARequest) : List FOIARequest :=
  db.filter (fun r =>
    !(terminalStatuses.contains r.status) &&
    (match r.extended_deadline with
     | some e => decide (e < today)
     | none =>
       match r.deadline with
       | some d => decide (d < today)
       | none => false))

/-- `session.get(FOIARequest, request_id)`: primary-key lookup. -/
def getRequest (db : List FOIARequest) (request_id : Nat) : Option FOIARequest :=
  db.find? (fun r => r.id == request_id)

/-- Commit an updated row back under its primary key. -/
def putRequest (db : List FOIARequest) (request_id : Nat) (r : FOIARequest) :
    List FOIARequest :=
  db.map (fun x => if x.id == request_id then r else x)

/-- One `key=value` pair of `update_status`'s `**kwargs`.  Every column name
is a real attribute, so `hasattr` lets all of these through — including `id`
and `date_created`; a key that names no column (`unknownKey`) is skipped. -/
inductive FieldUpdate where
  | id (v : Nat)
  | date_created (v : Nat)
  | reference_id (v : Option Str)
  | agency (v : Str)
  | jurisdiction (v : Str)
  | topic (v : Str)
  | date_filed (v : Option Nat)
  | deadline (v : Option Nat)
  | date_acknowledged (v : Option Nat)
  | date_extended (v : Option Nat)
  | extended_deadline (v : Option Nat)
  | date_response (v : Option Nat)
  | statusKey (v : RequestStatus)
  | notes (v : Option Str)
  | unknownKey
deriving DecidableEq, Repr

/-- `setattr(req, key, val)` for one kwargs pair. -/
def applyUpdate (r : FOIARequest) : FieldUpdate → FOIARequest
  | .id v => { r with id := v }
  | .date_created v => { r with date_created := v }
  | .reference_id v => { r with reference_id := v }
  | .agency v => { r with agency := v }
  | .jurisdiction v => { r with jurisdiction := v }
  | .topic v => { r with topic := v }
  | .date_filed v => { r with date_filed := v }
  | .deadline v => { r with deadline := v }
  | .date_acknowledged v => { r with date_acknowledged := v }
  | .date_extended v => { r with date_extended := v }
  | .extended_deadline v => { r with extended_deadline := v }
  | .date_response v => { r with date_response := v }
  | .statusKey v => { r with status := v }
  | .notes v => { r with notes := v }
  | .unknownKey => r

/-- `TrackerDB.update_status`: set the status, apply each kwargs pair in
order, commit; `None` when the id is absent. -/
def update_status (db : List FOIARequest) (request_id : Nat) (status : RequestStatus)
    (kwargs : List FieldUpdate) : List FOIARequest × Option FOIARequest :=
  match getRequest db request_id with
  | none => (db, none)
  | some r =>
    let r2 := kwargs.foldl applyUpdate { r with status := status }
    (putRequest db request_id r2, some r2)

/-- `TrackerDB.record_response`: set the response columns and derive the
status from `pages_withheld`; `None` when the id is absent. -/
def record_response (today : Nat) (db : List FOIARequest) (request_id : Nat)
    (docs_received pages_received pages_withheld : Nat)
    (exemptions_cited response_summary : Str) (date_response : Option Nat) :
    List FOIARequest × Option FOIARequest :=
  match getRequest db request_id with
  | none => (db, none)
  | some r =>
    let r2 : FOIARequest :=
      { r with
        docs_received := docs_received
        pages_received := pages_received
        pages_withheld := pages_withheld
        exemptions_cited := exemptions_cited
        response_summary := response_summary
        date_response := some (date_response.getD today)
        status := if 0 < pages_withheld then .PARTIAL_RESPONSE else .COMPLETE }
    (putRequest db request_id r2, some r2)

/-! ## Text helpers shared by the alert engine, parser and detector -/

/-- Decimal rendering of a natural number. -/
def natToStr (n : Nat) : Str := Nat.toDigits 10 n

/-- Left-pad with zeros to `k` characters. -/
def padZeros (k : Nat) (s : Str) : Str := List.replicate (k - s.length) '0' ++ s

/-- `date.isoformat()`: `YYYY-MM-DD`. -/
def isoformat (n : Nat) : Str :=
  padZeros 4 (natToStr (ymd n).y) ++ [ '-' ] ++ padZeros 2 (natToStr (ymd n).m) ++
    [ '-' ] ++ padZeros 2 (natToStr (ymd n).d)

/-- Is `pre` a prefix of the second argument (helper for substring search)? -/
def isPrefixStr : Str → Str → Bool
  | [], _ => true
  | _ :: _, [] => false
  | p :: ps, c :: cs => p == c && isPrefixStr ps cs

/-- Python `needle in hay` on strings: contiguous substring. -/
def containsStr (needle : Str) : Str → Bool
  | [] => isPrefixStr needle []
  | c :: cs => isPrefixStr needle (c :: cs) || containsStr needle cs

def toLowerStr (s : Str) : Str := s.map Char.toLower

/-- SQL `ilike '%needle%'`: case-insensitive substring. -/
def containsCI (hay needle : Str) : Bool :=
  containsStr (toLowerStr needle) (toLowerStr hay)

/-- `TrackerDB.list_requests`: optional filters, newest-created first,
offset/limit window.  An empty-string filter is falsy in Python and skipped. -/
def list_requests (db : List FOIARequest) (jurisdiction : Option Str)
    (status : Option RequestStatus) (agency : Option Str) (limit offset : Nat) :
    List FOIARequest :=
  let q := db
  let q := match jurisdiction with
    | some j => if j.isEmpty then q else q.filter (fun (r : FOIARequest) => r.jurisdiction == j)
    | none => q
  let q := match status with
    | some st => q.filter (fun (r : FOIARequest) => r.status == st)
    | none => q
  let q := match agency with
    | some a => if a.isEmpty then q else q.filter (fun (r : FOIARequest) => containsCI r.agency a)
    | none => q
  ((q.insertionSort (fun a b => b.date_created ≤ a.date_created)).drop offset).take
    limit

/-! ## Alert engine (`alerts.py`) -/

inductive AlertSeverity where
  | INFO
  | WARNING
  | URGENT
  | OVERDUE
deriving DecidableEq, Repr

structure Alert where
  request_id : Nat
  agency : Str
  jurisdiction : Str
  topic : Str
  severity : AlertSeverity
  message : Str
  days_remaining : Option Int
  deadline : Option Nat
  suggested_action : Str
deriving DecidableEq, Repr

/-- `AlertEngine.THRESHOLDS`. -/
def THRESHOLDS : List (AlertSeverity × Nat) :=
  [(.INFO, 10), (.WARNING, 5), (.URGENT, 2)]

def thresholdOf (sev : AlertSeverity) : Nat := (THRESHOLDS.lookup sev).getD 0

/-- `AlertEngine._overdue_action`: jurisdiction-specific escalation text. -/
def overdue_action (req : FOIARequest) : Str :=
  if req.jurisdiction == ("US-Federal").toList then
    ("Send a follow-up letter citing 5 U.S.C. Section 552(a)(6)(A). " ++
     "Consider filing an administrative appeal or contacting OGIS " ++
     "(ogis@nara.gov). Constructive denial of request may entitle " ++
     "you to immediate appeal.").toList
  else if req.jurisdiction == ("India").toList then
    ("File a first appeal under Section 19(1) of the RTI Act with " ++
     "the First Appellate Authority. The PIO\x27s failure to respond " ++
     "within 30 days is deemed a refusal.").toList
  else if req.jurisdiction == ("UK").toList then
    ("Send a follow-up citing Section 10(1) of FOIA 2000. " ++
     "Request an internal review. If no response within a reasonable " ++
     "time, complain to the ICO.").toList
  else if req.jurisdiction == ("EU").toList then
    ("The institution\x27s silence after 15 working days constitutes " ++
     "an implied refusal. File a confirmatory application under " ++
     "Article 7(2) of Regulation 1049/2001.").toList
  else ("Send a follow-up letter and prepare an appeal.").toList

/-- `AlertEngine._upcoming_action`. -/
def upcoming_action (days_left : Int) : Str :=
  if days_left ≤ 2 then
    ("Prepare appeal materials. Follow up with the agency immediately.").toList
  else if days_left ≤ 5 then
    ("Send a courtesy follow-up to the FOIA officer inquiring about status.").toList
  else ("Monitor. No action required yet.").toList

/-- The alert `_check_request` builds for an overdue request. -/
def overdueAlert (today : Nat) (req : FOIARequest) (e : Nat) : Alert :=
  let days_left : Int := (e : Int) - (today : Int)
  { request_id := req.id
    agency := req.agency
    jurisdiction := req.jurisdiction
    topic := req.topic
    severity := .OVERDUE
    message := ("Response is ").toList ++ natToStr days_left.natAbs ++
      (" day(s) overdue. Deadline was ").toList ++ isoformat e ++ ([ '.' ] : Str)
    days_remaining := some days_left
    deadline := some e
    suggested_action := overdue_action req }

/-- The alert `_check_request` builds for an upcoming deadline. -/
def upcomingAlert (today : Nat) (req : FOIARequest) (e : Nat)
    (severity : AlertSeverity) : Alert :=
  let days_left : Int := (e : Int) - (today : Int)
  { request_id := req.id
    agency := req.agency
    jurisdiction := req.jurisdiction
    topic := req.topic
    severity := severity
    message := ("Deadline in ").toList ++ natToStr days_left.toNat ++
      (" day(s) (").toList ++ isoformat e ++ (").").toList
    days_remaining := some days_left
    deadline := some e
    suggested_action := upcoming_action days_left }

/-- `AlertEngine._check_request`.  When `days_left` is defined the effective
deadline is necessarily set (both derive from the same date), so the
`(some, none)` case cannot arise. -/
def check_request (today : Nat) (req : FOIARequest) : Option Alert :=
  match days_until_deadline today req, effectiveDeadline req with
  | none, _ => none
  | some _, none => none
  | some days_left, some e =>
    if days_left < 0 then some (overdueAlert today req e)
    else
      let sev : Option AlertSeverity :=
        if days_left ≤ (thresholdOf .URGENT : Nat) then some .URGENT
        else if days_left ≤ (thresholdOf .WARNING : Nat) then some .WARNING
        else if days_left ≤ (thresholdOf .INFO : Nat) then some .INFO
        else none
      match sev with
      | none => none
      | some severity => some (upcomingAlert today req e severity)

/-- The statuses `check_all` scans. -/
def active_statuses : List RequestStatus :=
  [.FILED, .ACKNOWLEDGED, .PROCESSING, .EXTENDED, .APPEALED]

/-- `severity_order` in `check_all`. -/
def severityOrder : AlertSeverity → Nat
  | .OVERDUE => 0
  | .URGENT => 1
  | .WARNING => 2
  | .INFO => 3

/-- The sort key `(severity_order, days_remaining or 0)`, as a Bool order. -/
def alertLe (a b : Alert) : Bool :=
  decide (severityOrder a.severity < severityOrder b.severity) ||
  (severityOrder a.severity == severityOrder b.severity &&
    decide (a.days_remaining.getD 0 ≤ b.days_remaining.getD 0))

/-- The requests `check_all` fetches: each active status in turn, through
`list_requests(status=st, limit=10000)`. -/
def scannedRequests (db : List FOIARequest) : List FOIARequest :=
  active_statuses.flatMap (fun st => list_requests db none (some st) none 10000 0)

/-- `AlertEngine.check_all`: alerts for the scanned requests, sorted by
severity rank then by `days_remaining or 0` (Python's stable sort). -/
def check_all (today : Nat) (db : List FOIARequest) : List Alert :=
  ((scannedRequests db).filterMap (check_request today)).insertionSort
    (fun a b => alertLe a b = true)

/-- `AlertEngine.check_overdue`: a filtered view of `check_all`. -/
def check_overdue (today : Nat) (db : List FOIARequest) : List Alert :=
  (check_all today db).filter (fun a => a.severity == .OVERDUE)

/-- `AlertEngine.check_upcoming`: a filtered view of `check_all`. -/
def check_upcoming (today : Nat) (db : List FOIARequest) (within_days : Int) :
    List Alert :=
  (check_all today db).filter (fun a =>
    match a.days_remaining with
    | some d => decide (0 < d) && decide (d ≤ within_days)
    | none => false)

/-! ## Response parser: exemption extraction (`response_parser.py`)

`re.findall` is modelled by a left-to-right, non-overlapping scan: at each
position try the pattern; on a match, emit it and resume after its end; on a
failure, advance one character.  The two US patterns are simple enough to
write as direct character matchers. -/

def isDigitChar (c : Char) : Bool := decide ('0' ≤ c) && decide (c ≤ '9')

def isUpperAF (c : Char) : Bool := decide ('A' ≤ c) && decide (c ≤ 'F')

/-- `[A-F]` under `re.IGNORECASE` also matches `a`–`f`. -/
def isLetterAFCI (c : Char) : Bool :=
  isUpperAF c || (decide ('a' ≤ c) && decide (c ≤ 'f'))

/-- Python `\s` (ASCII portion). -/
def isSpaceChar (c : Char) : Bool :=
  c == ' ' || c == '\t' || c == '\n' || c == '\r' || c == '\x0b' || c == '\x0c'

/-- Case-sensitive literal prefix; returns the remainder on success. -/
def stripPrefixExact : Str → Str → Option Str
  | [], l => some l
  | _ :: _, [] => none
  | p :: ps, c :: cs => if c == p then stripPrefixExact ps cs else none

/-- Case-insensitive literal prefix (pattern given in lower case). -/
def stripPrefixCI : Str → Str → Option Str
  | [], l => some l
  | _ :: _, [] => none
  | p :: ps, c :: cs => if c.toLower == p then stripPrefixCI ps cs else none

/-- The generic `findall` scan; `fuel` only bounds the recursion and is always
instantiated with the text length, which suffices because every step consumes
at least one character. -/
def findAllGo (matcher : Str → Option (Str × Str)) : Nat → Str → List Str
  | 0, _ => []
  | _, [] => []
  | fuel + 1, c :: cs =>
    match matcher (c :: cs) with
    | some (g, rest) => g :: findAllGo matcher fuel rest
    | none => findAllGo matcher fuel cs

def findAll (matcher : Str → Option (Str × Str)) (text : Str) : List Str :=
  findAllGo matcher text.length text

/-- One attempt of `\(b\)\(\d\)(?:\([A-F]\))?` (case-sensitive): the whole
match is the value `re.findall` collects. -/
def matchCitationB : Str → Option (Str × Str)
  | '(' :: 'b' :: ')' :: '(' :: d :: ')' :: rest =>
    if isDigitChar d then
      match rest with
      | '(' :: l2 :: ')' :: rest2 =>
        if isUpperAF l2 then some (['(', 'b', ')', '(', d, ')', '(', l2, ')'], rest2)
        else some (['(', 'b', ')', '(', d, ')'], rest)
      | _ => some (['(', 'b', ')', '(', d, ')'], rest)
    else none
  | _ => none

/-- One attempt of `Exemption\s+(\d(?:\([A-F]\))?)` with `re.IGNORECASE`:
the captured group (digit plus optional parenthesised letter) is collected. -/
def matchExemptionWord (l : Str) : Option (Str × Str) :=
  match stripPrefixCI (("exemption").toList) l with
  | none => none
  | some r1 =>
    match r1 with
    | [] => none
    | c :: cs =>
      if isSpaceChar c then
        match cs.dropWhile isSpaceChar with
        | [] => none
        | d :: r3 =>
          if isDigitChar d then
            match r3 with
            | '(' :: l2 :: ')' :: r4 =>
              if isLetterAFCI l2 then some ([d, '(', l2, ')'], r4)
              else some ([d], r3)
            | _ => some ([d], r3)
          else none
      else none

/-- One attempt of `[Ss]ection\s+(\d{1,2})` (case-sensitive): the 1–2 digit
group is collected, greedily two digits when available. -/
def matchUkSection : Str → Option (Str × Str)
  | [] => none
  | c :: rest =>
    if c == 'S' || c == 's' then
      match stripPrefixExact (("ection").toList) rest with
      | none => none
      | some r1 =>
        match r1 with
        | [] => none
        | c2 :: cs2 =>
          if isSpaceChar c2 then
            match cs2.dropWhile isSpaceChar with
            | [] => none
            | d1 :: r3 =>
              if isDigitChar d1 then
                match r3 with
                | d2 :: r4 =>
                  if isDigitChar d2 then some ([d1, d2], r4) else some ([d1], r3)
                | [] => some ([d1], [])
              else none
          else none
    else none

/-- One attempt of `[Ss]ection\s+8\(1\)\(([a-j])\)`: the letter is collected. -/
def matchIndiaSection : Str → Option (Str × Str)
  | [] => none
  | c :: rest =>
    if c == 'S' || c == 's' then
      match stripPrefixExact (("ection").toList) rest with
      | none => none
      | some r1 =>
        match r1 with
        | [] => none
        | c2 :: cs2 =>
          if isSpaceChar c2 then
            match cs2.dropWhile isSpaceChar with
            | '8' :: '(' :: '1' :: ')' :: '(' :: x :: ')' :: r3 =>
              if decide ('a' ≤ x) && decide (x ≤ 'j') then some ([x], r3) else none
            | _ => none
          else none
    else none

/-- Python `sorted` on strings: lexicographic by code point. -/
def lexLe : Str → Str → Bool
  | [], _ => true
  | _ :: _, [] => false
  | a :: as_, b :: bs => if a == b then lexLe as_ bs else decide (a < b)

def sortStrs (l : List Str) : List Str :=
  l.insertionSort (fun a b => lexLe a b = true)

/-- `ResponseParser._extract_exemptions`.  US: the sorted deduplicated
`(b)(N)` citations, then each normalised `Exemption N` citation appended when
not already present.  UK/India: sorted deduplicated section numbers, mapped
to their display form.  Other jurisdictions: empty. -/
def extract_exemptions (text : Str) (jurisdiction : Str) : List Str :=
  if jurisdiction == ("US-Federal").toList ||
      startsWithStr jurisdiction (("US-State").toList) then
    let part1 := sortStrs (findAll matchCitationB text).dedup
    let normalized := (findAll matchExemptionWord text).map
      (fun m => ("(b)(").toList ++ m ++ [')'])
    normalized.foldl (fun acc f => if f ∈ acc then acc else acc ++ [f]) part1
  else if jurisdiction == ("UK").toList then
    (sortStrs (findAll matchUkSection text).dedup).map
      (fun g => ("Section ").toList ++ g)
  else if jurisdiction == ("India").toList then
    (sortStrs (findAll matchIndiaSection text).dedup).map
      (fun g => ("Section 8(1)(").toList ++ g ++ [')'])
  else []

/-- `ParsedResponse` (the fields the detector and the extraction contract
read; numeric fees are rationals). -/
structure ParsedResponse where
  determination : Str := ("unknown").toList
  determination_text : Str := []
  pages_released : Nat := 0
  pages_withheld_full : Nat := 0
  pages_withheld_partial : Nat := 0
  pages_referred : Nat := 0
  documents_released : Nat := 0
  documents_withheld : Nat := 0
  exemptions : List Str := []
  exemption_details : List (Str × Str) := []
  fee_charged : Option ℚ := none
  fee_waiver_granted : Option Bool := none
  assigned_analyst : Str := []
  tracking_number : Str := []
  response_date : Str := []
  appeal_deadline : Str := []
  appeal_address : Str := []
  raw_text : Str := []
deriving DecidableEq, Repr

/-! ## Redaction detector (`redaction_detector.py`)

Python floats become rationals: the weights and thresholds involved
(`0.1 … 1.0`, `0.5`, `0.8`) and their relevant sums are exactly representable,
so the comparisons agree with the source on all realistic inputs. -/

structure RedactionFlag where
  severity : Str
  category : Str
  description : Str
  recommendation : Str
  exemption : Option Str := none
deriving DecidableEq, Repr

structure RedactionReport where
  flags : List RedactionFlag := []
  risk_score : ℚ := 0
  summary : Str := []
  appeal_recommended : Bool := false
deriving DecidableEq, Repr

/-- `weights.get(f.severity, 0.1)`. -/
def severityWeight (sev : Str) : ℚ :=
  (([((("high").toList : Str), (4 : ℚ)/10),
     ((("medium").toList : Str), (2 : ℚ)/10),
     ((("low").toList : Str), (1 : ℚ)/10)]).lookup sev).getD ((1 : ℚ)/10)

/-- `RedactionReport._recalculate_score`: on an empty flag list only the score
is reset (the recommendation flag is left as it was); otherwise the capped
weighted sum and the `>= 0.3` recommendation are both recomputed. -/
def recalculate_score (rep : RedactionReport) : RedactionReport :=
  if rep.flags.isEmpty then { rep with risk_score := 0 }
  else
    let total := (rep.flags.map (fun f => severityWeight f.severity)).sum
    let score := min 1 total
    { rep with risk_score := score, appeal_recommended := decide ((3 : ℚ)/10 ≤ score) }

/-- `RedactionReport.add_flag`. -/
def add_flag (rep : RedactionReport) (flag : RedactionFlag) : RedactionReport :=
  recalculate_score { rep with flags := rep.flags ++ [flag] }

/-- Round a rational to a whole percentage (the `:.0%` rendering; ties go to
even, matching `format`; the double rounding a float would add never moves
these small ratios across an integer boundary). -/
def percentOf (q : ℚ) : Nat :=
  let p := q * 100
  let f := p.floor
  let frac := p - f
  (if frac > 1/2 then f + 1
   else if frac < 1/2 then f
   else if f % 2 = 0 then f else f + 1).toNat

/-- The high-severity flag of `_check_excessive_withholding`. -/
def excessiveHighFlag (parsed : ParsedResponse) : RedactionFlag :=
  let total := parsed.pages_released + parsed.pages_withheld_full
  let withhold_ratio : ℚ := (parsed.pages_withheld_full : ℚ) / (total : ℚ)
  { severity := ("high").toList
    category := ("Excessive Withholding").toList
    description := natToStr parsed.pages_withheld_full ++ (" of ").toList ++
      natToStr total ++ (" pages (").toList ++ natToStr (percentOf withhold_ratio) ++
      ("%) were withheld in full. This ratio is unusually high and may " ++
       "indicate over-classification or blanket withholding.").toList
    recommendation := ("Appeal the withholding. Request a Vaughn index " ++
      "detailing the justification for each withheld document.").toList }

/-- The medium-severity flag of `_check_excessive_withholding`. -/
def excessiveMediumFlag (parsed : ParsedResponse) : RedactionFlag :=
  let total := parsed.pages_released + parsed.pages_withheld_full
  let withhold_ratio : ℚ := (parsed.pages_withheld_full : ℚ) / (total : ℚ)
  { severity := ("medium").toList
    category := ("High Withholding Rate").toList
    description := natToStr (percentOf withhold_ratio) ++
      ("% of pages withheld. Review exemption justifications carefully.").toList
    recommendation := ("Request more detailed justification for each " ++
      "category of withheld records.").toList }

/-- `_check_excessive_withholding`: the page-ratio rule shared by the US, UK
and India rule sets. -/
def check_excessive_withholding (parsed : ParsedResponse) (report : RedactionReport) :
    RedactionReport :=
  let total := parsed.pages_released + parsed.pages_withheld_full
  if total = 0 then report
  else
    let withhold_ratio : ℚ := (parsed.pages_withheld_full : ℚ) / (total : ℚ)
    if withhold_ratio > (8 : ℚ)/10 then add_flag report (excessiveHighFlag parsed)
    else if withhold_ratio > (5 : ℚ)/10 then add_flag report (excessiveMediumFlag parsed)
    else report

/-- `_check_exemption_patterns_us`. -/
def check_exemption_patterns_us (parsed : ParsedResponse) (report : RedactionReport) :
    RedactionReport :=
  if 4 ≤ parsed.exemptions.length then
    add_flag report
      { severity := ("medium").toList
        category := ("Multiple Exemptions").toList
        description := natToStr parsed.exemptions.length ++
          (" different exemptions cited. Using many exemptions for a single " ++
           "request may indicate a \x27kitchen sink\x27 approach to withholding.").toList
        recommendation := ("Challenge each exemption individually. Agencies must " ++
          "justify each exemption for each specific withholding.").toList }
  else report

/-- `_check_blanket_denial`. -/
def check_blanket_denial (parsed : ParsedResponse) (report : RedactionReport) :
    RedactionReport :=
  if parsed.determination == ("denial").toList && parsed.pages_released == 0 then
    add_flag report
      { severity := ("high").toList
        category := ("Blanket Denial").toList
        description := ("The entire request was denied with no records released. " ++
          "Total denials warrant close scrutiny.").toList
        recommendation := ("File an appeal. Under 5 U.S.C. Section 552(b), the " ++
          "agency must demonstrate that an exemption applies to each withheld " ++
          "record. A blanket denial without document-by-document review is " ++
          "improper.").toList }
  else report

/-- `_check_segregability`. -/
def check_segregability (parsed : ParsedResponse) (report : RedactionReport) :
    RedactionReport :=
  if 0 < parsed.pages_withheld_full && parsed.pages_withheld_partial == 0 then
    add_flag report
      { severity := ("medium").toList
        category := ("No Partial Releases").toList
        description := ("All withheld pages were withheld in full with no " ++
          "partial redactions. Under FOIA, agencies must release all reasonably " ++
          "segregable non-exempt portions.").toList
        recommendation := ("Challenge on segregability grounds. Cite 5 U.S.C. " ++
          "Section 552(b) (final sentence).").toList }
  else report

/-- `_check_b4_overuse`. -/
def check_b4_overuse (parsed : ParsedResponse) (report : RedactionReport) :
    RedactionReport :=
  if parsed.exemptions.any (fun e =>
      containsStr (("(b)(4)").toList) e || containsStr (("(4)").toList) e) then
    add_flag report
      { severity := ("low").toList
        category := ("Exemption 4 — Trade Secrets").toList
        description := ("Exemption (b)(4) was cited. In the context of animal " ++
          "agriculture, this exemption is sometimes improperly applied to " ++
          "shield routine operational data.").toList
        recommendation := ("Verify whether the submitter was given notice under " ++
          "Executive Order 12600. Challenge if the information was submitted " ++
          "voluntarily or is already publicly available.").toList
        exemption := some (("(b)(4)").toList) }
  else report

/-- `_check_b5_overuse`. -/
def check_b5_overuse (parsed : ParsedResponse) (report : RedactionReport) :
    RedactionReport :=
  if parsed.exemptions.any (fun e =>
      containsStr (("(b)(5)").toList) e || containsStr (("(5)").toList) e) then
    add_flag report
      { severity := ("medium").toList
        category := ("Exemption 5 — Deliberative Process").toList
        description := ("Exemption (b)(5) is the most abused FOIA exemption. " ++
          "It requires the document be both predecisional AND deliberative.").toList
        recommendation := ("Challenge segregable factual material, a decision " ++
          "already made, or a document that is not truly deliberative. " ++
          "Cite NLRB v. Sears.").toList
        exemption := some (("(b)(5)").toList) }
  else report

/-- `_check_b7_misapplication`. -/
def check_b7_misapplication (parsed : ParsedResponse) (report : RedactionReport) :
    RedactionReport :=
  if parsed.exemptions.any (fun e =>
      containsStr (("(b)(7)").toList) e || containsStr (("(7)").toList) e) then
    add_flag report
      { severity := ("medium").toList
        category := ("Exemption 7 — Law Enforcement").toList
        description := ("Exemption (b)(7) requires a law enforcement nexus. " ++
          "Routine inspection records may not qualify as law enforcement " ++
          "records under this exemption.").toList
        recommendation := ("Challenge the law enforcement nexus: regulatory " ++
          "inspections for compliance purposes are not compiled for law " ++
          "enforcement purposes within the meaning of Exemption 7.").toList
        exemption := some (("(b)(7)").toList) }
  else report

/-- `_check_no_vaughn_index`. -/
def check_no_vaughn_index (parsed : ParsedResponse) (report : RedactionReport) :
    RedactionReport :=
  if 10 < parsed.pages_withheld_full &&
      (parsed.determination == ("denial").toList ||
       parsed.determination == ("partial_grant").toList) &&
      !(containsStr (("vaughn").toList) (toLowerStr parsed.raw_text)) then
    add_flag report
      { severity := ("low").toList
        category := ("No Vaughn Index").toList
        description := ("The response withheld substantial records without " ++
          "providing a Vaughn index.").toList
        recommendation := ("In your appeal, request a Vaughn index that " ++
          "identifies each withheld document and the specific exemption(s) " ++
          "applied. See Vaughn v. Rosen.").toList }
  else report

/-- The Section 43 flag of `_check_uk_patterns`. -/
def uk43Flag (exemption : Str) : RedactionFlag :=
  { severity := ("medium").toList
    category := ("Section 43 — Commercial Interests").toList
    description := ("Section 43 is a qualified exemption and requires " ++
      "a public interest test.").toList
    recommendation := ("Request internal review. Argue that the public " ++
      "interest in transparency outweighs commercial sensitivity.").toList
    exemption := some exemption }

/-- The Sections 35/36 flag of `_check_uk_patterns`. -/
def uk3536Flag (exemption : Str) : RedactionFlag :=
  { severity := ("medium").toList
    category := ("Policy Formulation Exemption").toList
    description := ("Sections 35/36 are qualified exemptions frequently " ++
      "used to shield policy development.").toList
    recommendation := ("Argue that once a policy decision is made, the " ++
      "public interest shifts decisively toward disclosure.").toList
    exemption := some exemption }

/-- `_check_uk_patterns`: two substring rules per cited exemption. -/
def check_uk_patterns (parsed : ParsedResponse) (report : RedactionReport) :
    RedactionReport :=
  parsed.exemptions.foldl (fun acc exemption =>
    let acc1 :=
      if containsStr (("43").toList) exemption then add_flag acc (uk43Flag exemption)
      else acc
    if containsStr (("35").toList) exemption ||
        containsStr (("36").toList) exemption then
      add_flag acc1 (uk3536Flag exemption)
    else acc1) report

/-- The Section 8(1)(d) flag of `_check_india_patterns`. -/
def india8dFlag (exemption : Str) : RedactionFlag :=
  { severity := ("medium").toList
    category := ("Section 8(1)(d) — Commercial Confidence").toList
    description := ("Section 8(1)(d) protects commercial confidence; " ++
      "Section 8(2) still allows disclosure in the public interest.").toList
    recommendation := ("Appeal citing Section 8(2): public interest in " ++
      "food safety, animal welfare and environmental protection.").toList
    exemption := some exemption }

/-- The Section 8(1)(j) flag of `_check_india_patterns`. -/
def india8jFlag (exemption : Str) : RedactionFlag :=
  { severity := ("low").toList
    category := ("Section 8(1)(j) — Personal Information").toList
    description := ("Section 8(1)(j) exempts personal information with " ++
      "no relationship to public activity; officials acting in their " ++
      "official capacity are not exempt.").toList
    recommendation := ("Challenge if the withheld information relates to " ++
      "official duties of public servants.").toList
    exemption := some exemption }

/-- `_check_india_patterns`: two substring rules per cited exemption. -/
def check_india_patterns (parsed : ParsedResponse) (report : RedactionReport) :
    RedactionReport :=
  parsed.exemptions.foldl (fun acc exemption =>
    let acc1 :=
      if containsStr (("8(1)(d)").toList) exemption then
        add_flag acc (india8dFlag exemption)
      else acc
    if containsStr (("8(1)(j)").toList) exemption then
      add_flag acc1 (india8jFlag exemption)
    else acc1) report

/-- `", ".join` of the non-empty severity buckets. -/
def severityParts (high med low : Nat) : List Str :=
  (if 0 < high then [natToStr high ++ (" high-severity").toList] else []) ++
  (if 0 < med then [natToStr med ++ (" medium-severity").toList] else []) ++
  (if 0 < low then [natToStr low ++ (" low-severity").toList] else [])

def joinCommaStr (parts : List Str) : Str :=
  match parts with
  | [] => []
  | p :: ps => p ++ (ps.flatMap (fun q => (", ").toList ++ q))

/-- `RedactionDetector._generate_summary`. -/
def generate_summary (report : RedactionReport) : Str :=
  if report.flags.isEmpty then
    ("No suspicious patterns detected in the agency response.").toList
  else
    let high := report.flags.countP (fun f => f.severity == ("high").toList)
    let med := report.flags.countP (fun f => f.severity == ("medium").toList)
    let low := report.flags.countP (fun f => f.severity == ("low").toList)
    ("Detected ").toList ++ joinCommaStr (severityParts high med low) ++
      (" issue(s). Overall risk score: ").toList ++
      natToStr (percentOf report.risk_score) ++ ("%. ").toList ++
      (if report.appeal_recommended then ("Appeal recommended.").toList
       else ("Monitor closely.").toList)

/-- `RedactionDetector.analyze`: jurisdiction-dispatched rule sets, then the
summary. -/
def analyze (parsed : ParsedResponse) (jurisdiction : Str) : RedactionReport :=
  let report : RedactionReport := {}
  let report :=
    if jurisdiction == ("US-Federal").toList ||
        startsWithStr jurisdiction (("US-State").toList) then
      check_no_vaughn_index parsed
        (check_b7_misapplication parsed
          (check_b5_overuse parsed
            (check_b4_overuse parsed
              (check_segregability parsed
                (check_blanket_denial parsed
                  (check_exemption_patterns_us parsed
                    (check_excessive_withholding parsed report)))))))
    else if jurisdiction == ("UK").toList then
      check_uk_patterns parsed (check_excessive_withholding parsed report)
    else if jurisdiction == ("India").toList then
      check_india_patterns parsed (check_excessive_withholding parsed report)
    else report
  { report with summary := generate_summary report }

/-! ## Calendar and business-day lemmas -/

theorem ymd_succ (n : Nat) : ymd (n + 1) = succYmd (ymd n) := rfl

theorem dim_jan (y : Nat) : daysInMonth y 1 = 31 := rfl

theorem dim_jun (y : Nat) : daysInMonth y 6 = 30 := rfl

theorem dim_jul (y : Nat) : daysInMonth y 7 = 31 := rfl

theorem dim_nov (y : Nat) : daysInMonth y 11 = 30 := rfl

theorem dim_dec (y : Nat) : daysInMonth y 12 = 31 := rfl

theorem ymd_succ_eq (t y m d : Nat) (h : ymd t = ⟨y, m, d⟩)
    (h2 : d < daysInMonth y m) : ymd (t + 1) = ⟨y, m, d + 1⟩ := by
  rw [ymd_succ, h, succYmd]
  simp only [if_pos h2]

theorem isBusinessDay_true (cal : HolidayCal) (n : Nat) (hwk : weekday n < 5)
    (hol : holidayFn cal n = false) : isBusinessDay cal n = true := by
  have hw : is_weekend n = false := by
    simp only [is_weekend, decide_eq_false_iff_not]
    omega
  simp [isBusinessDay, hw, hol]

theorem us_not_holiday (n : Nat) (hw : weekday n = 1 ∨ weekday n = 2 ∨ weekday n = 4)
    (hfix : usFixedHoliday (month n) (day n) = false) :
    is_us_federal_holiday n = false := by
  rcases hw with h | h | h <;> simp [is_us_federal_holiday, hfix, h]

theorem uk_not_holiday (n : Nat) (hw : weekday n = 1 ∨ weekday n = 2 ∨ weekday n = 4)
    (hfix : ukFixedHoliday (month n) (day n) = false) :
    is_uk_bank_holiday n = false := by
  rcases hw with h | h | h <;> simp [is_uk_bank_holiday, hfix, h]

/-- Package a concrete business day in `(n, n+10]` as a bounded witness. -/
theorem biz_within (cal : HolidayCal) (t n : Nat) (ht : n < t) (hle : t ≤ n + 10)
    (hb : isBusinessDay cal t = true) :
    ∃ j, j < 11 ∧ isBusinessDay cal (n + 1 + j) = true := by
  refine ⟨t - (n + 1), by omega, ?_⟩
  have h : n + 1 + (t - (n + 1)) = t := by omega
  rw [h]
  exact hb

/-- Within any eleven-day window the calendar contains a business day: take the
first Tuesday strictly after `n`; if it is a fixed-date holiday, the following
Wednesday (or, for UK Dec 25, the Friday three days on) is not.  Floating
Monday/Thursday holiday rules never hit a Tuesday, Wednesday or Friday. -/
theorem exists_business_day (cal : HolidayCal) (n : Nat) :
    ∃ j, j < 11 ∧ isBusinessDay cal (n + 1 + j) = true := by
  set t := n + 1 + ((10 - (n + 1) % 7) % 7) with hT
  have ht7 : t % 7 = 3 := by omega
  have htlo : n < t := by omega
  have hthi : t ≤ n + 7 := by omega
  have hwt : weekday t = 1 := by simp only [weekday]; omega
  have hwt1 : weekday (t + 1) = 2 := by simp only [weekday]; omega
  have hwt3 : weekday (t + 3) = 4 := by simp only [weekday]; omega
  rcases cal with _ | _ | _
  · -- US federal calendar
    by_cases hfix : usFixedHoliday (month t) (day t) = true
    · rcases hE : ymd t with ⟨y, m, d⟩
      have hm : month t = m := by simp [month, hE]
      have hd : day t = d := by simp [day, hE]
      rw [hm, hd] at hfix
      simp only [usFixedHoliday, Bool.or_eq_true, Bool.and_eq_true, beq_iff_eq] at hfix
      have step : ∀ m2 d2 : Nat, ymd (t + 1) = ⟨y, m2, d2⟩ →
          usFixedHoliday m2 d2 = false →
          ∃ j, j < 11 ∧ isBusinessDay HolidayCal.us (n + 1 + j) = true := by
        intro m2 d2 hE1 hf2
        refine biz_within _ (t + 1) n (by omega) (by omega) ?_
        refine isBusinessDay_true _ _ (by omega) ?_
        show is_us_federal_holiday (t + 1) = false
        refine us_not_holiday _ (Or.inr (Or.inl hwt1)) ?_
        have hm1 : month (t + 1) = m2 := by simp [month, hE1]
        have hd1 : day (t + 1) = d2 := by simp [day, hE1]
        rw [hm1, hd1]
        exact hf2
      rcases hfix with ((((⟨h1, h2⟩ | ⟨h1, h2⟩) | ⟨h1, h2⟩) | ⟨h1, h2⟩) | ⟨h1, h2⟩) <;>
        rw [h1, h2] at hE
      · exact step 1 2 (ymd_succ_eq t y 1 1 hE (by rw [dim_jan y]; omega)) (by decide)
      · exact step 6 20 (ymd_succ_eq t y 6 19 hE (by rw [dim_jun y]; omega)) (by decide)
      · exact step 7 5 (ymd_succ_eq t y 7 4 hE (by rw [dim_jul y]; omega)) (by decide)
      · exact step 11 12 (ymd_succ_eq t y 11 11 hE (by rw [dim_nov y]; omega)) (by decide)
      · exact step 12 26 (ymd_succ_eq t y 12 25 hE (by rw [dim_dec y]; omega)) (by decide)
    · refine biz_within _ t n htlo (by omega) ?_
      refine isBusinessDay_true _ _ (by omega) ?_
      show is_us_federal_holiday t = false
      exact us_not_holiday _ (Or.inl hwt) (by simpa using hfix)
  · -- UK bank-holiday calendar
    by_cases hfix : ukFixedHoliday (month t) (day t) = true
    · rcases hE : ymd t with ⟨y, m, d⟩
      have hm : month t = m := by simp [month, hE]
      have hd : day t = d := by simp [day, hE]
      rw [hm, hd] at hfix
      simp only [ukFixedHoliday, Bool.or_eq_true, Bool.and_eq_true, beq_iff_eq] at hfix
      have step : ∀ k m2 d2 : Nat, k ≤ 3 → ymd (t + k) = ⟨y, m2, d2⟩ →
          ukFixedHoliday m2 d2 = false → weekday (t + k) = 2 ∨ weekday (t + k) = 4 →
          ∃ j, j < 11 ∧ isBusinessDay HolidayCal.uk (n + 1 + j) = true := by
        intro k m2 d2 hk hE1 hf2 hwk
        refine biz_within _ (t + k) n (by omega) (by omega) ?_
        refine isBusinessDay_true _ _ (by rcases hwk with h | h <;> omega) ?_
        show is_uk_bank_holiday (t + k) = false
        refine uk_not_holiday _ (by rcases hwk with h | h <;> simp [h]) ?_
        have hm1 : month (t + k) = m2 := by simp [month, hE1]
        have hd1 : day (t + k) = d2 := by simp [day, hE1]
        rw [hm1, hd1]
        exact hf2
      rcases hfix with ((⟨h1, h2⟩ | ⟨h1, h2⟩) | ⟨h1, h2⟩) <;> rw [h1, h2] at hE
      · exact step 1 1 2 (by omega) (ymd_succ_eq t y 1 1 hE (by rw [dim_jan y]; omega))
          (by decide) (Or.inl hwt1)
      · -- Dec 25: Dec 26 is also a UK fixed holiday, so use Dec 28 (the Friday)
        have e1 : ymd (t + 1) = ⟨y, 12, 26⟩ :=
          ymd_succ_eq t y 12 25 hE (by rw [dim_dec y]; omega)
        have e2 : ymd (t + 2) = ⟨y, 12, 27⟩ :=
          ymd_succ_eq (t + 1) y 12 26 e1 (by rw [dim_dec y]; omega)
        have e3 : ymd (t + 3) = ⟨y, 12, 28⟩ :=
          ymd_succ_eq (t + 2) y 12 27 e2 (by rw [dim_dec y]; omega)
        exact step 3 12 28 (by omega) e3 (by decide) (Or.inr hwt3)
      · exact step 1 12 27 (by omega)
          (ymd_succ_eq t y 12 26 hE (by rw [dim_dec y]; omega)) (by decide)
          (Or.inl hwt1)
    · refine biz_within _ t n htlo (by omega) ?_
      refine isBusinessDay_true _ _ (by omega) ?_
      show is_uk_bank_holiday t = false
      exact uk_not_holiday _ (Or.inl hwt) (by simpa using hfix)
  · -- no holiday calendar (`holiday_fn = None`)
    exact biz_within _ t n htlo (by omega) (isBusinessDay_true _ _ (by omega) rfl)

theorem nextBusinessDayGo_spec (cal : HolidayCal) :
    ∀ fuel c, (∃ j, j < fuel ∧ isBusinessDay cal (c + j) = true) →
      c ≤ nextBusinessDayGo cal fuel c ∧
      isBusinessDay cal (nextBusinessDayGo cal fuel c) = true ∧
      ∀ m, c ≤ m → m < nextBusinessDayGo cal fuel c → isBusinessDay cal m = false := by
  intro fuel
  induction fuel with
  | zero => intro c h; omega
  | succ fuel ih =>
    intro c h
    by_cases hb : isBusinessDay cal c = true
    · have hc : nextBusinessDayGo cal (fuel + 1) c = c := by
        simp [nextBusinessDayGo, hb]
      refine ⟨by omega, ?_, ?_⟩
      · rw [hc]
        exact hb
      · intro m h1 h2
        rw [hc] at h2
        omega
    · have hgo : nextBusinessDayGo cal (fuel + 1) c = nextBusinessDayGo cal fuel (c + 1) := by
        simp [nextBusinessDayGo, hb]
      have hex : ∃ j, j < fuel ∧ isBusinessDay cal (c + 1 + j) = true := by
        obtain ⟨j, hj, hbj⟩ := h
        rcases j with _ | j
        · simp at hbj
          exact absurd hbj hb
        · refine ⟨j, by omega, ?_⟩
          have harith : c + 1 + j = c + (j + 1) := by omega
          rw [harith]
          exact hbj
      obtain ⟨ih1, ih2, ih3⟩ := ih (c + 1) hex
      refine ⟨by omega, by rw [hgo]; exact ih2, ?_⟩
      intro m h1 h2
      rw [hgo] at h2
      rcases Nat.eq_or_lt_of_le h1 with h | h
      · rw [← h]
        exact Bool.eq_false_iff.mpr hb
      · exact ih3 m (by omega) h2

theorem nextBusinessDay_spec (cal : HolidayCal) (n : Nat) :
    n < nextBusinessDay cal n ∧
    isBusinessDay cal (nextBusinessDay cal n) = true ∧
    ∀ m, n < m → m < nextBusinessDay cal n → isBusinessDay cal m = false := by
  obtain ⟨h1, h2, h3⟩ :=
    nextBusinessDayGo_spec cal 11 (n + 1) (exists_business_day cal n)
  simp only [nextBusinessDay]
  exact ⟨by omega, h2, fun m hm1 hm2 => h3 m (by omega) hm2⟩

theorem businessDaysIoc_next (cal : HolidayCal) (s : Nat) :
    businessDaysIoc cal s (nextBusinessDay cal s) = 1 := by
  obtain ⟨h1, h2, h3⟩ := nextBusinessDay_spec cal s
  have : (Finset.Ioc s (nextBusinessDay cal s)).filter
      (fun x => isBusinessDay cal x = true) = {nextBusinessDay cal s} := by
    ext x
    simp only [Finset.mem_filter, Finset.mem_Ioc, Finset.mem_singleton]
    constructor
    · rintro ⟨⟨ha, hb⟩, hc⟩
      rcases Nat.eq_or_lt_of_le hb with h | h
      · exact h
      · rw [h3 x ha h] at hc
        exact absurd hc (by simp)
    · rintro rfl
      exact ⟨⟨h1, Nat.le_refl _⟩, h2⟩
  rw [businessDaysIoc, this, Finset.card_singleton]

theorem businessDaysIoc_split (cal : HolidayCal) (s t e : Nat) (h1 : s ≤ t) (h2 : t ≤ e) :
    businessDaysIoc cal s e = businessDaysIoc cal s t + businessDaysIoc cal t e := by
  have hu : Finset.Ioc s t ∪ Finset.Ioc t e = Finset.Ioc s e :=
    Finset.Ioc_union_Ioc_eq_Ioc h1 h2
  have hd : Disjoint ((Finset.Ioc s t).filter (fun x => isBusinessDay cal x = true))
      ((Finset.Ioc t e).filter (fun x => isBusinessDay cal x = true)) := by
    refine Finset.disjoint_left.mpr ?_
    intro a ha hb
    simp only [Finset.mem_filter, Finset.mem_Ioc] at ha hb
    omega
  rw [businessDaysIoc, ← hu, Finset.filter_union, Finset.card_union_of_disjoint hd]
  rfl

/-- Invariant of the counting loop: starting anywhere, `add_business_days`
lands exactly `days` business days further on, on a business day when
`days ≥ 1`, and the start day itself is never counted. -/
theorem add_business_days_spec (cal : HolidayCal) :
    ∀ (days : Nat) (s : Nat),
      s ≤ add_business_days cal s days ∧
      businessDaysIoc cal s (add_business_days cal s days) = days ∧
      (1 ≤ days → isBusinessDay cal (add_business_days cal s days) = true ∧
        s < add_business_days cal s days) := by
  intro days
  induction days with
  | zero =>
    intro s
    refine ⟨Nat.le_refl s, ?_, by omega⟩
    simp [businessDaysIoc, add_business_days]
  | succ days ih =>
    intro s
    obtain ⟨hnlt, hnb, _⟩ := nextBusinessDay_spec cal s
    obtain ⟨ih1, ih2, ih3⟩ := ih (nextBusinessDay cal s)
    have hstep : add_business_days cal s (days + 1) =
        add_business_days cal (nextBusinessDay cal s) days := rfl
    have hle : s ≤ add_business_days cal s (days + 1) := by rw [hstep]; omega
    refine ⟨hle, ?_, ?_⟩
    · rw [hstep, businessDaysIoc_split cal s (nextBusinessDay cal s) _ (by omega) ih1,
        businessDaysIoc_next, ih2]
      omega
    · intro _
      rcases Nat.eq_zero_or_pos days with hz | hpos
      · subst hz
        refine ⟨?_, by rw [hstep, add_business_days]; omega⟩
        rw [hstep, add_business_days]
        exact hnb
      · obtain ⟨hb, hlt⟩ := ih3 hpos
        exact ⟨by rw [hstep]; exact hb, by rw [hstep]; omega⟩

/-! ## Claim theorems -/

/-- C1: `is_overdue` is `false` for every request in a terminal status
(`COMPLETE`, `DENIED`, `WITHDRAWN`, `NO_RESPONSIVE_RECORDS`) regardless of
dates, and `false` when the effective deadline is absent; otherwise it is
`true` exactly when the effective deadline is strictly before today; and
`get_overdue` returns exactly the stored requests for which `is_overdue`
holds. -/
theorem c1_is_overdue_get_overdue :
    ∀ (today : Nat) (r : FOIARequest) (db : List FOIARequest),
      (terminalStatuses.contains r.status = true → is_overdue today r = false) ∧
      (effectiveDeadline r = none → is_overdue today r = false) ∧
      (terminalStatuses.contains r.status = false →
        ∀ e, effectiveDeadline r = some e →
          (is_overdue today r = true ↔ e < today)) ∧
      get_overdue today db = db.filter (fun x => is_overdue today x) := by
  intro today r db
  refine ⟨?_, ?_, ?_, ?_⟩
  · intro h
    have hm : r.status ∈ terminalStatuses := by simpa using h
    simp [is_overdue, hm]
  · intro h
    by_cases hc : r.status ∈ terminalStatuses <;> simp [is_overdue, h, hc]
  · intro hc e he
    have hm : r.status ∉ terminalStatuses := by simpa using hc
    simp [is_overdue, hm, he]
  · rw [get_overdue]
    refine List.filter_congr ?_
    intro x _
    by_cases hc : x.status ∈ terminalStatuses <;>
      rcases hx : x.extended_deadline with _ | e <;>
        rcases hd : x.deadline with _ | d <;>
          simp [is_overdue, effectiveDeadline, hc, hx, hd]

/-- C2: with `extended_deadline` set, `is_overdue` and `days_until_deadline`
are computed from it and ignore `deadline` entirely (whatever value that field
takes, including a later one); with it absent, both are computed from
`deadline`. -/
theorem c2_extended_deadline_precedence :
    ∀ (today : Nat) (r : FOIARequest),
      (∀ e, r.extended_deadline = some e →
        days_until_deadline today r = some ((e : Int) - (today : Int)) ∧
        is_overdue today r =
          (!(terminalStatuses.contains r.status) && decide (e < today)) ∧
        ∀ d0 : Option Nat,
          days_until_deadline today { r with deadline := d0 } =
            days_until_deadline today r ∧
          is_overdue today { r with deadline := d0 } = is_overdue today r) ∧
      (r.extended_deadline = none →
        days_until_deadline today r =
          r.deadline.map (fun d => (d : Int) - (today : Int)) ∧
        ∀ d, r.deadline = some d →
          is_overdue today r =
            (!(terminalStatuses.contains r.status) && decide (d < today))) := by
  intro today r
  constructor
  · intro e he
    refine ⟨?_, ?_, ?_⟩
    · simp [days_until_deadline, effectiveDeadline, he]
    · by_cases hc : terminalStatuses.contains r.status <;>
        simp [is_overdue, effectiveDeadline, he, hc]
    · intro d0
      constructor
      · simp [days_until_deadline, effectiveDeadline, he]
      · simp [is_overdue, effectiveDeadline, he]
  · intro he
    constructor
    · rcases hd : r.deadline with _ | d <;>
        simp [days_until_deadline, effectiveDeadline, he, hd]
    · intro d hd
      by_cases hc : terminalStatuses.contains r.status <;>
        simp [is_overdue, effectiveDeadline, he, hd, hc]

/-- C5: `record_response` leaves an existing request in `PARTIAL_RESPONSE`
when `pages_withheld > 0` and in `COMPLETE` when `pages_withheld = 0`,
whatever the prior status; an absent id returns `none` and leaves the store
unchanged. -/
theorem c5_record_response_status :
    ∀ (today : Nat) (db : List FOIARequest) (request_id docs pr pw : Nat)
      (ex sm : Str) (dr : Option Nat),
      (getRequest db request_id = none →
        record_response today db request_id docs pr pw ex sm dr = (db, none)) ∧
      (∀ r, getRequest db request_id = some r →
        ∃ r2, record_response today db request_id docs pr pw ex sm dr =
            (putRequest db request_id r2, some r2) ∧
          (0 < pw → r2.status = RequestStatus.PARTIAL_RESPONSE) ∧
          (pw = 0 → r2.status = RequestStatus.COMPLETE) ∧
          r2 ∈ (record_response today db request_id docs pr pw ex sm dr).1) := by
  intro today db request_id docs pr pw ex sm dr
  constructor
  · intro h
    simp [record_response, h]
  · intro r hr
    simp only [record_response, hr]
    refine ⟨_, rfl, ?_, ?_, ?_⟩
    · intro hpw
      simp [if_pos hpw]
    · intro hpw
      subst hpw
      simp
    · have hr2 : db.find? (fun x => x.id == request_id) = some r := hr
      have hmem : r ∈ db := List.mem_of_find?_eq_some hr2
      have hid := List.find?_some hr2
      simp only [putRequest]
      exact List.mem_map.mpr ⟨r, hmem, by simp [hid]⟩

/-- C7: rule resolution tries an exact table match first; otherwise any
jurisdiction with the `US-State` prefix resolves to the generic fallback
(10 business days, US holiday calendar, no extension); anything else fails
with the `ValueError` message naming the known jurisdictions. -/
theorem c7_get_rule_resolution :
    ∀ jurisdiction : Str,
      (∀ r, JURISDICTION_RULES.lookup jurisdiction = some r →
        get_rule jurisdiction = .ok r) ∧
      (JURISDICTION_RULES.lookup jurisdiction = none →
        startsWithStr jurisdiction (("US-State").toList) = true →
        get_rule jurisdiction = .ok usStateFallbackRule ∧
        usStateFallbackRule.initial_days = 10 ∧
        usStateFallbackRule.day_type = DayType.business ∧
        usStateFallbackRule.holiday_cal = HolidayCal.us ∧
        usStateFallbackRule.extension_days = 0) ∧
      (JURISDICTION_RULES.lookup jurisdiction = none →
        startsWithStr jurisdiction (("US-State").toList) = false →
        get_rule jurisdiction = .error (unknownJurisdictionMessage jurisdiction) ∧
        knownJurisdictions = ("US-Federal, India, UK, EU").toList) := by
  intro jurisdiction
  refine ⟨?_, ?_, ?_⟩
  · intro r h
    simp [get_rule, h]
  · intro h hs
    refine ⟨?_, rfl, rfl, rfl, rfl⟩
    unfold get_rule
    rw [h, hs]
    rfl
  · intro h hs
    refine ⟨?_, rfl⟩
    unfold get_rule
    rw [h, hs]
    rfl

/-- A report built by successive `add_flag` calls on a fresh report. -/
def buildReport (flags : List RedactionFlag) : RedactionReport :=
  flags.foldl add_flag {}

theorem recalculate_score_flags (rep : RedactionReport) :
    (recalculate_score rep).flags = rep.flags := by
  by_cases h : rep.flags.isEmpty <;> simp [recalculate_score, h]

theorem add_flag_flags (rep : RedactionReport) (f : RedactionFlag) :
    (add_flag rep f).flags = rep.flags ++ [f] := by
  rw [add_flag, recalculate_score_flags]

theorem foldl_add_flag_flags (fs : List RedactionFlag) :
    ∀ rep : RedactionReport, (fs.foldl add_flag rep).flags = rep.flags ++ fs := by
  induction fs with
  | nil => intro rep; simp
  | cons f fs ih =>
    intro rep
    rw [List.foldl_cons, ih, add_flag_flags]
    simp

theorem buildReport_flags (fs : List RedactionFlag) : (buildReport fs).flags = fs := by
  rw [buildReport, foldl_add_flag_flags]
  rfl

theorem severityWeight_pos (sev : Str) : 0 < severityWeight sev := by
  rw [severityWeight]
  simp only [List.lookup]
  split
  · norm_num [Option.getD]
  · split
    · norm_num [Option.getD]
    · split
      · norm_num [Option.getD]
      · norm_num [Option.getD]

theorem add_flag_score (rep : RedactionReport) (f : RedactionFlag) :
    (add_flag rep f).risk_score =
      min 1 (((rep.flags ++ [f]).map (fun g => severityWeight g.severity)).sum) := by
  rw [add_flag, recalculate_score, if_neg (by simp)]

theorem add_flag_appeal_iff (rep : RedactionReport) (f : RedactionFlag) :
    (add_flag rep f).appeal_recommended = true ↔
      (3 : ℚ)/10 ≤ (add_flag rep f).risk_score := by
  rw [add_flag, recalculate_score, if_neg (by simp)]
  simp

theorem buildReport_append (fs : List RedactionFlag) (f : RedactionFlag) :
    buildReport (fs ++ [f]) = add_flag (buildReport fs) f := by
  rw [buildReport, buildReport, List.foldl_append, List.foldl_cons, List.foldl_nil]

theorem buildReport_score (fs : List RedactionFlag) :
    (buildReport fs).risk_score =
      min 1 ((fs.map (fun f => severityWeight f.severity)).sum) := by
  rcases List.eq_nil_or_concat fs with h | ⟨gs, g, h⟩
  · subst h
    show (0 : ℚ) = min 1 0
    norm_num
  · subst h
    rw [List.concat_eq_append, buildReport_append, add_flag_score, buildReport_flags]

theorem buildReport_appeal (fs : List RedactionFlag) (f : RedactionFlag) :
    (buildReport (fs ++ [f])).appeal_recommended = true ↔
      (3 : ℚ)/10 ≤ (buildReport (fs ++ [f])).risk_score := by
  rw [buildReport_append]
  exact add_flag_appeal_iff _ _

/-- C6: after every `add_flag` the risk score is the weighted flag sum capped
at 1 (weights 0.4/0.2/0.1 with default 0.1), hence always within `[0, 1]` and
non-decreasing as flags accumulate, and `appeal_recommended` holds exactly
when the score is at least 0.3. -/
theorem c6_redaction_score_invariants :
    ∀ (fs : List RedactionFlag) (f : RedactionFlag),
      severityWeight (("high").toList) = (4 : ℚ)/10 ∧
      severityWeight (("medium").toList) = (2 : ℚ)/10 ∧
      severityWeight (("low").toList) = (1 : ℚ)/10 ∧
      severityWeight (("unrecognized").toList) = (1 : ℚ)/10 ∧
      (buildReport (fs ++ [f])).risk_score =
        min 1 (((fs ++ [f]).map (fun g => severityWeight g.severity)).sum) ∧
      0 ≤ (buildReport fs).risk_score ∧
      (buildReport fs).risk_score ≤ 1 ∧
      (buildReport fs).risk_score ≤ (buildReport (fs ++ [f])).risk_score ∧
      ((buildReport (fs ++ [f])).appeal_recommended = true ↔
        (3 : ℚ)/10 ≤ (buildReport (fs ++ [f])).risk_score) := by
  intro fs f
  have hsum_nonneg : ∀ gs : List RedactionFlag,
      0 ≤ (gs.map (fun g => severityWeight g.severity)).sum := by
    intro gs
    induction gs with
    | nil => simp
    | cons g gs ih =>
      rw [List.map_cons, List.sum_cons]
      have := severityWeight_pos g.severity
      linarith
  refine ⟨by norm_num [severityWeight, List.lookup],
    by norm_num [severityWeight, List.lookup],
    by norm_num [severityWeight, List.lookup],
    by norm_num [severityWeight, List.lookup],
    buildReport_score (fs ++ [f]), ?_, ?_, ?_, buildReport_appeal fs f⟩
  · rw [buildReport_score]
    have := hsum_nonneg fs
    exact le_min (by norm_num) this
  · rw [buildReport_score]
    exact min_le_left _ _
  · rw [buildReport_score, buildReport_score]
    refine min_le_min (le_refl 1) ?_
    rw [List.map_append, List.sum_append]
    have := hsum_nonneg [f]
    linarith

/-- Does one `update_status` kwargs pair write the immutable identity
columns (`id`, `date_created`)? -/
def touchesIdentity : FieldUpdate → Bool
  | .id _ => true
  | .date_created _ => true
  | _ => false

theorem applyUpdate_identity (r : FOIARequest) (u : FieldUpdate)
    (h : touchesIdentity u = false) :
    (applyUpdate r u).id = r.id ∧ (applyUpdate r u).date_created = r.date_created := by
  cases u <;> simp_all [applyUpdate, touchesIdentity]

theorem foldl_applyUpdate_identity (kwargs : List FieldUpdate) :
    ∀ r : FOIARequest, (∀ u ∈ kwargs, touchesIdentity u = false) →
      (kwargs.foldl applyUpdate r).id = r.id ∧
      (kwargs.foldl applyUpdate r).date_created = r.date_created := by
  induction kwargs with
  | nil => intro r _; exact ⟨rfl, rfl⟩
  | cons u us ih =>
    intro r h
    rw [List.foldl_cons]
    obtain ⟨h1, h2⟩ := ih (applyUpdate r u) (fun v hv => h v (List.mem_cons_of_mem u hv))
    obtain ⟨h3, h4⟩ := applyUpdate_identity r u (h u (List.mem_cons_self u us))
    exact ⟨h1.trans h3, h2.trans h4⟩

/-- C9 (counterexample): `update_status` applies any kwargs pair whose key is
a real column, so passing `id=999` rewrites the store-assigned id — the claim
fails for kwargs that name the identity columns. -/
theorem c9_update_status_mutates_id :
    ((update_status
        [{ id := 1, agency := ("A").toList, jurisdiction := ("UK").toList,
           topic := ("t").toList, date_created := 0 }]
        1 RequestStatus.FILED [FieldUpdate.id 999]).2.map
      (fun r => r.id)) = some 999 ∧
    ((update_status
        [{ id := 1, agency := ("A").toList, jurisdiction := ("UK").toList,
           topic := ("t").toList, date_created := 0 }]
        1 RequestStatus.FILED [FieldUpdate.id 999]).2.map
      (fun r => r.id)) ≠ some 1 := by
  refine ⟨rfl, ?_⟩
  decide

/-- C9 (amended): for every `update_status` call whose extra field updates do
not name `id` or `date_created`, the updated record keeps the id and creation
timestamp of the stored record. -/
theorem c9_update_status_preserves_identity :
    ∀ (db : List FOIARequest) (request_id : Nat) (status : RequestStatus)
      (kwargs : List FieldUpdate) (r r2 : FOIARequest),
      (∀ u ∈ kwargs, touchesIdentity u = false) →
      getRequest db request_id = some r →
      (update_status db request_id status kwargs).2 = some r2 →
      r2.id = r.id ∧ r2.date_created = r.date_created := by
  intro db request_id status kwargs r r2 hk hr h2
  rw [update_status, hr] at h2
  simp only [Option.some.injEq] at h2
  obtain ⟨ha, hb⟩ := foldl_applyUpdate_identity kwargs { r with status := status } hk
  rw [← h2]
  exact ⟨ha, hb⟩

/-- C9 witness: a concrete call whose kwargs set only `date_filed` keeps id 1
and creation day 0. -/
theorem c9_preserves_identity_witness :
    ((update_status
        [{ id := 1, agency := ("A").toList, jurisdiction := ("UK").toList,
           topic := ("t").toList, date_created := 0 }]
        1 RequestStatus.FILED [FieldUpdate.date_filed (some 5)]).2.map
      (fun r => r.id)) = some 1 := by
  have h := c9_update_status_preserves_identity
    [{ id := 1, agency := ("A").toList, jurisdiction := ("UK").toList,
       topic := ("t").toList, date_created := 0 }]
    1 RequestStatus.FILED [FieldUpdate.date_filed (some 5)]
    { id := 1, agency := ("A").toList, jurisdiction := ("UK").toList,
      topic := ("t").toList, date_created := 0 }
    { id := 1, agency := ("A").toList, jurisdiction := ("UK").toList,
      topic := ("t").toList, date_created := 0, date_filed := some 5,
      status := RequestStatus.FILED }
    (by intro u hu; simp at hu; subst hu; rfl) rfl rfl
  simp [update_status, getRequest, putRequest, List.find?]
  exact h.1

/-- C3: for every jurisdiction resolving to a business-day rule with a
positive initial period, the computed deadline is neither a weekend day nor a
holiday of the rule's calendar, lies strictly after the filing date, and the
number of business days in `(filing, deadline]` is exactly the initial period
(the filing date itself is never counted). -/
theorem c3_business_deadline_correct :
    ∀ (jurisdiction : Str) (filed_date : Nat) (rule : Rule),
      get_rule jurisdiction = .ok rule →
      rule.day_type = DayType.business →
      1 ≤ rule.initial_days →
      ∃ deadline, calculate jurisdiction filed_date = .ok deadline ∧
        is_weekend deadline = false ∧
        holidayFn rule.holiday_cal deadline = false ∧
        businessDaysIoc rule.holiday_cal filed_date deadline = rule.initial_days ∧
        filed_date < deadline := by
  intro jurisdiction filed_date rule hrule hday hpos
  refine ⟨add_business_days rule.holiday_cal filed_date rule.initial_days, ?_, ?_⟩
  · rw [calculate, hrule]
    simp only []
    rw [hday]
  · obtain ⟨_, hcount, hbiz⟩ :=
      add_business_days_spec rule.holiday_cal rule.initial_days filed_date
    obtain ⟨hb, hlt⟩ := hbiz hpos
    simp only [isBusinessDay, Bool.and_eq_true, Bool.not_eq_eq_eq_not, Bool.not_true] at hb
    exact ⟨hb.1, hb.2, hcount, hlt⟩

/-- C3 witness: the EU rule (15 business days, no holiday calendar) applied
to day 4 (2000-01-05). -/
theorem c3_business_deadline_witness :
    get_rule (("EU").toList) = .ok euRule ∧
    euRule.day_type = DayType.business ∧
    1 ≤ euRule.initial_days ∧
    ∃ deadline, calculate (("EU").toList) 4 = .ok deadline ∧
      is_weekend deadline = false ∧
      holidayFn euRule.holiday_cal deadline = false ∧
      businessDaysIoc euRule.holiday_cal 4 deadline = euRule.initial_days ∧
      4 < deadline :=
  ⟨rfl, rfl, by decide,
    c3_business_deadline_correct (("EU").toList) 4 euRule rfl rfl (by decide)⟩

theorem lexLe_trans :
    ∀ a b c : Str, lexLe a b = true → lexLe b c = true → lexLe a c = true := by
  intro a
  induction a with
  | nil => intro b c _ _; rfl
  | cons x xs ih =>
    intro b c hab hbc
    cases b with
    | nil => simp [lexLe] at hab
    | cons y ys =>
      cases c with
      | nil => simp [lexLe] at hbc
      | cons z zs =>
        rw [lexLe] at hab hbc ⊢
        by_cases hxy : x = y
        · subst hxy
          rw [if_pos (by simp)] at hab
          by_cases hyz : x = z
          · subst hyz
            rw [if_pos (by simp)] at hbc
            rw [if_pos (by simp)]
            exact ih ys zs hab hbc
          · rw [if_neg (by simpa using hyz)] at hbc
            rw [if_neg (by simpa using hyz)]
            exact hbc
        · rw [if_neg (by simpa using hxy)] at hab
          by_cases hyz : y = z
          · subst hyz
            rw [if_neg (by simpa using hxy)]
            exact hab
          · rw [if_neg (by simpa using hyz)] at hbc
            have h1 : x < y := of_decide_eq_true hab
            have h2 : y < z := of_decide_eq_true hbc
            have h3 : x < z := lt_trans h1 h2
            rw [if_neg (by simpa using ne_of_lt h3)]
            exact decide_eq_true h3

theorem lexLe_total : ∀ a b : Str, (lexLe a b || lexLe b a) = true := by
  intro a
  induction a with
  | nil => intro b; simp [lexLe]
  | cons x xs ih =>
    intro b
    cases b with
    | nil => simp [lexLe]
    | cons y ys =>
      rw [lexLe, lexLe]
      by_cases hxy : x = y
      · subst hxy
        rw [if_pos (by simp), if_pos (by simp)]
        exact ih ys
      · rw [if_neg (by simpa using hxy), if_neg (by simpa using (Ne.symm hxy))]
        rcases lt_or_gt_of_ne hxy with h | h
        · simp [decide_eq_true h]
        · simp [decide_eq_true h]

theorem sortStrs_sorted (l : List Str) :
    List.Pairwise (fun a b => lexLe a b = true) (sortStrs l) :=
  @List.sorted_insertionSort Str (fun a b => lexLe a b = true) _
    ⟨fun a b => by
      have h := lexLe_total a b
      simp only [Bool.or_eq_true] at h
      exact h⟩
    ⟨fun a b c hab hbc => lexLe_trans a b c hab hbc⟩ l

theorem sortStrs_nodup (l : List Str) (h : l.Nodup) : (sortStrs l).Nodup :=
  ((List.perm_insertionSort (fun a b => lexLe a b = true) l).nodup_iff).mpr h

theorem foldl_append_if_absent_nodup (l : List Str) :
    ∀ acc : List Str, acc.Nodup →
      (l.foldl (fun acc f => if f ∈ acc then acc else acc ++ [f]) acc).Nodup := by
  induction l with
  | nil => intro acc h; exact h
  | cons f fs ih =>
    intro acc h
    rw [List.foldl_cons]
    by_cases hm : f ∈ acc
    · rw [if_pos hm]
      exact ih acc h
    · rw [if_neg hm]
      refine ih (acc ++ [f]) ?_
      simp [List.nodup_append, h, hm]

theorem foldl_append_if_absent_prefix (l : List Str) :
    ∀ acc : List Str, ∃ extras,
      l.foldl (fun acc f => if f ∈ acc then acc else acc ++ [f]) acc = acc ++ extras := by
  induction l with
  | nil => intro acc; exact ⟨[], by simp⟩
  | cons f fs ih =>
    intro acc
    rw [List.foldl_cons]
    by_cases hm : f ∈ acc
    · rw [if_pos hm]
      exact ih acc
    · rw [if_neg hm]
      obtain ⟨e, he⟩ := ih (acc ++ [f])
      exact ⟨f :: e, by rw [he]; simp⟩

/-- C8 (amended): for US-Federal and every `US-State` jurisdiction the
extracted exemption list is duplicate-free; the `(b)(N)`-style citations form
a sorted deduplicated block at the front, and normalised `Exemption N`
citations not already present are appended after that block in text order
(so the whole list need not be sorted). -/
theorem c8_extract_exemptions_us :
    ∀ (text jurisdiction : Str),
      (jurisdiction = ("US-Federal").toList ∨
        startsWithStr jurisdiction (("US-State").toList) = true) →
      (extract_exemptions text jurisdiction).Nodup ∧
      List.Pairwise (fun a b => lexLe a b = true)
        (sortStrs (findAll matchCitationB text).dedup) ∧
      ∃ extras, extract_exemptions text jurisdiction =
        sortStrs (findAll matchCitationB text).dedup ++ extras := by
  intro text jurisdiction h
  have hcond : (jurisdiction == ("US-Federal").toList ||
      startsWithStr jurisdiction (("US-State").toList)) = true := by
    rcases h with h | h
    · simp [h]
    · simp at h ⊢
      exact Or.inr h
  have hbranch : extract_exemptions text jurisdiction =
      ((findAll matchExemptionWord text).map
        (fun m => ("(b)(").toList ++ m ++ [')'])).foldl
        (fun acc f => if f ∈ acc then acc else acc ++ [f])
        (sortStrs (findAll matchCitationB text).dedup) := by
    rw [extract_exemptions, hcond]
    rfl
  refine ⟨?_, sortStrs_sorted _, ?_⟩
  · rw [hbranch]
    exact foldl_append_if_absent_nodup _ _
      (sortStrs_nodup _ (List.nodup_dedup _))
  · rw [hbranch]
    exact foldl_append_if_absent_prefix _ _

/-- C8 (counterexample): on `"(b)(6) applies. Exemption 5"` the normalised
`Exemption 5` citation is appended after the sorted `(b)(6)` block, so the
list `["(b)(6)", "(b)(5)"]` is not in ascending order. -/
theorem c8_extract_exemptions_unsorted :
    extract_exemptions (("(b)(6) applies. Exemption 5").toList)
        (("US-Federal").toList) =
      [("(b)(6)").toList, ("(b)(5)").toList] ∧
    ¬ List.Pairwise (fun a b => lexLe a b = true)
      (extract_exemptions (("(b)(6) applies. Exemption 5").toList)
        (("US-Federal").toList)) := by
  constructor
  · decide
  · decide

/-- C8 witness: the amended statement at the concrete text and jurisdiction. -/
theorem c8_extract_exemptions_witness :
    (extract_exemptions (("(b)(6) Exemption 5 cited").toList)
      (("US-Federal").toList)).Nodup ∧
    List.Pairwise (fun a b => lexLe a b = true)
      (sortStrs (findAll matchCitationB (("(b)(6) Exemption 5 cited").toList)).dedup) ∧
    ∃ extras, extract_exemptions (("(b)(6) Exemption 5 cited").toList)
        (("US-Federal").toList) =
      sortStrs (findAll matchCitationB (("(b)(6) Exemption 5 cited").toList)).dedup ++
        extras :=
  c8_extract_exemptions_us (("(b)(6) Exemption 5 cited").toList)
    (("US-Federal").toList) (Or.inl rfl)

/-- The flags `_check_uk_patterns` appends, per exemption in order. -/
def ukPatternFlags (exs : List Str) : List RedactionFlag :=
  exs.flatMap (fun e =>
    (if containsStr (("43").toList) e then [uk43Flag e] else []) ++
    (if containsStr (("35").toList) e || containsStr (("36").toList) e then
      [uk3536Flag e] else []))

/-- The flags `_check_india_patterns` appends, per exemption in order. -/
def indiaPatternFlags (exs : List Str) : List RedactionFlag :=
  exs.flatMap (fun e =>
    (if containsStr (("8(1)(d)").toList) e then [india8dFlag e] else []) ++
    (if containsStr (("8(1)(j)").toList) e then [india8jFlag e] else []))

/-- The flags `_check_excessive_withholding` appends. -/
def excessFlags (parsed : ParsedResponse) : List RedactionFlag :=
  let total := parsed.pages_released + parsed.pages_withheld_full
  if total = 0 then []
  else
    let withhold_ratio : ℚ := (parsed.pages_withheld_full : ℚ) / (total : ℚ)
    if withhold_ratio > (8 : ℚ)/10 then [excessiveHighFlag parsed]
    else if withhold_ratio > (5 : ℚ)/10 then [excessiveMediumFlag parsed]
    else []

theorem check_excessive_flags (parsed : ParsedResponse) (report : RedactionReport) :
    (check_excessive_withholding parsed report).flags =
      report.flags ++ excessFlags parsed := by
  simp only [check_excessive_withholding, excessFlags]
  split_ifs <;> simp [add_flag_flags]

theorem check_uk_patterns_flags (parsed : ParsedResponse) (report : RedactionReport) :
    (check_uk_patterns parsed report).flags =
      report.flags ++ ukPatternFlags parsed.exemptions := by
  rw [check_uk_patterns]
  generalize parsed.exemptions = exs
  induction exs generalizing report with
  | nil => simp [ukPatternFlags]
  | cons e es ih =>
    rw [List.foldl_cons, ih]
    simp only [ukPatternFlags, List.flatMap_cons]
    split_ifs <;> simp [add_flag_flags, List.append_assoc]

theorem check_india_patterns_flags (parsed : ParsedResponse) (report : RedactionReport) :
    (check_india_patterns parsed report).flags =
      report.flags ++ indiaPatternFlags parsed.exemptions := by
  rw [check_india_patterns]
  generalize parsed.exemptions = exs
  induction exs generalizing report with
  | nil => simp [indiaPatternFlags]
  | cons e es ih =>
    rw [List.foldl_cons, ih]
    simp only [indiaPatternFlags, List.flatMap_cons]
    split_ifs <;> simp [add_flag_flags, List.append_assoc]

theorem analyze_uk_eq (parsed : ParsedResponse) :
    analyze parsed (("UK").toList) =
      { check_uk_patterns parsed (check_excessive_withholding parsed {}) with
        summary := generate_summary
          (check_uk_patterns parsed (check_excessive_withholding parsed {})) } := by
  have c1 : ((("UK").toList == ("US-Federal").toList) ||
      startsWithStr (("UK").toList) (("US-State").toList)) = false := by decide
  have c2 : ((("UK").toList : Str) == ("UK").toList) = true := by decide
  rw [analyze, c1, c2]
  simp

theorem analyze_india_eq (parsed : ParsedResponse) :
    analyze parsed (("India").toList) =
      { check_india_patterns parsed (check_excessive_withholding parsed {}) with
        summary := generate_summary
          (check_india_patterns parsed (check_excessive_withholding parsed {})) } := by
  have c1 : ((("India").toList == ("US-Federal").toList) ||
      startsWithStr (("India").toList) (("US-State").toList)) = false := by decide
  have c2 : ((("India").toList : Str) == ("UK").toList) = false := by decide
  have c3 : ((("India").toList : Str) == ("India").toList) = true := by decide
  rw [analyze, c1, c2, c3]
  simp

theorem ukPatternFlags_categories (exs : List Str) (f : RedactionFlag)
    (hf : f ∈ ukPatternFlags exs) :
    f.category = ("Section 43 — Commercial Interests").toList ∨
    f.category = ("Policy Formulation Exemption").toList := by
  rw [ukPatternFlags] at hf
  obtain ⟨e, _, hf2⟩ := List.mem_flatMap.mp hf
  rw [List.mem_append] at hf2
  rcases hf2 with hf2 | hf2 <;> split_ifs at hf2 <;> simp at hf2 <;> subst hf2
  · exact Or.inl rfl
  · exact Or.inr rfl

theorem indiaPatternFlags_categories (exs : List Str) (f : RedactionFlag)
    (hf : f ∈ indiaPatternFlags exs) :
    f.category = ("Section 8(1)(d) — Commercial Confidence").toList ∨
    f.category = ("Section 8(1)(j) — Personal Information").toList := by
  rw [indiaPatternFlags] at hf
  obtain ⟨e, _, hf2⟩ := List.mem_flatMap.mp hf
  rw [List.mem_append] at hf2
  rcases hf2 with hf2 | hf2 <;> split_ifs at hf2 <;> simp at hf2 <;> subst hf2
  · exact Or.inl rfl
  · exact Or.inr rfl

/-- The concrete response used for the nonzero-score part of C10: everything
withheld, no exemption cited anywhere. -/
def excessOnlyExample : ParsedResponse := { pages_withheld_full := 1 }

theorem ukPatternFlags_any_false (exs : List Str) (p : RedactionFlag → Bool)
    (hp : ∀ f : RedactionFlag,
      (f.category = ("Section 43 — Commercial Interests").toList ∨
        f.category = ("Policy Formulation Exemption").toList) → p f = false) :
    (ukPatternFlags exs).any p = false := by
  rw [List.any_eq_false]
  intro f hf
  rw [hp f (ukPatternFlags_categories exs f hf)]
  simp

theorem indiaPatternFlags_any_false (exs : List Str) (p : RedactionFlag → Bool)
    (hp : ∀ f : RedactionFlag,
      (f.category = ("Section 8(1)(d) — Commercial Confidence").toList ∨
        f.category = ("Section 8(1)(j) — Personal Information").toList) → p f = false) :
    (indiaPatternFlags exs).any p = false := by
  rw [List.any_eq_false]
  intro f hf
  rw [hp f (indiaPatternFlags_categories exs f hf)]
  simp

theorem excessiveHighFlag_severity (parsed : ParsedResponse) :
    (excessiveHighFlag parsed).severity = ("high").toList := rfl

theorem excessiveMediumFlag_severity (parsed : ParsedResponse) :
    (excessiveMediumFlag parsed).severity = ("medium").toList := rfl

theorem flag_pred_false_of_category_ne (f : RedactionFlag) (cat lit sev : Str)
    (hc : f.category = cat) (hne : (cat == lit) = false) :
    (f.category == lit && f.severity == sev) = false := by
  rw [hc, hne]
  simp

theorem excessFlags_any_high (parsed : ParsedResponse)
    (h : 0 < parsed.pages_released + parsed.pages_withheld_full) :
    ((excessFlags parsed).any (fun f =>
        f.category == ("Excessive Withholding").toList &&
          f.severity == ("high").toList)) = true ↔
      (8 : ℚ)/10 < (parsed.pages_withheld_full : ℚ) /
        ((parsed.pages_released + parsed.pages_withheld_full : Nat) : ℚ) := by
  simp only [excessFlags]
  rw [if_neg (by omega)]
  split_ifs with h8 h5
  · simp only [List.any_cons, List.any_nil, Bool.or_false]
    have h1 : (excessiveHighFlag parsed).category =
        ("Excessive Withholding").toList := rfl
    have h2 : (excessiveHighFlag parsed).severity = ("high").toList := rfl
    rw [h1, h2, (by decide : ((("Excessive Withholding").toList : Str) ==
      ("Excessive Withholding").toList && (("high").toList : Str) ==
      ("high").toList) = true)]
    exact iff_of_true rfl h8
  · simp only [List.any_cons, List.any_nil, Bool.or_false]
    have h1 : (excessiveMediumFlag parsed).category =
        ("High Withholding Rate").toList := rfl
    have h2 : (excessiveMediumFlag parsed).severity = ("medium").toList := rfl
    rw [h1, h2, (by decide : ((("High Withholding Rate").toList : Str) ==
      ("Excessive Withholding").toList && (("medium").toList : Str) ==
      ("high").toList) = false)]
    exact iff_of_false (by simp) h8
  · simp only [List.any_nil]
    exact iff_of_false (by simp) h8

theorem excessFlags_any_medium (parsed : ParsedResponse)
    (h : 0 < parsed.pages_released + parsed.pages_withheld_full) :
    ((excessFlags parsed).any (fun f =>
        f.category == ("High Withholding Rate").toList &&
          f.severity == ("medium").toList)) = true ↔
      ((5 : ℚ)/10 < (parsed.pages_withheld_full : ℚ) /
          ((parsed.pages_released + parsed.pages_withheld_full : Nat) : ℚ) ∧
        (parsed.pages_withheld_full : ℚ) /
          ((parsed.pages_released + parsed.pages_withheld_full : Nat) : ℚ) ≤
          (8 : ℚ)/10) := by
  simp only [excessFlags]
  rw [if_neg (by omega)]
  split_ifs with h8 h5
  · simp only [List.any_cons, List.any_nil, Bool.or_false]
    have h1 : (excessiveHighFlag parsed).category =
        ("Excessive Withholding").toList := rfl
    have h2 : (excessiveHighFlag parsed).severity = ("high").toList := rfl
    rw [h1, h2, (by decide : ((("Excessive Withholding").toList : Str) ==
      ("High Withholding Rate").toList && (("high").toList : Str) ==
      ("medium").toList) = false)]
    refine iff_of_false (by simp) ?_
    rintro ⟨_, hle⟩
    linarith
  · simp only [List.any_cons, List.any_nil, Bool.or_false]
    have h1 : (excessiveMediumFlag parsed).category =
        ("High Withholding Rate").toList := rfl
    have h2 : (excessiveMediumFlag parsed).severity = ("medium").toList := rfl
    rw [h1, h2, (by decide : ((("High Withholding Rate").toList : Str) ==
      ("High Withholding Rate").toList && (("medium").toList : Str) ==
      ("medium").toList) = true)]
    exact iff_of_true rfl ⟨h5, not_lt.mp h8⟩
  · simp only [List.any_nil]
    refine iff_of_false (by simp) ?_
    rintro ⟨hlt, _⟩
    exact h5 hlt

theorem analyze_uk_flags (parsed : ParsedResponse) :
    (analyze parsed (("UK").toList)).flags =
      excessFlags parsed ++ ukPatternFlags parsed.exemptions := by
  rw [analyze_uk_eq]
  show (check_uk_patterns parsed (check_excessive_withholding parsed {})).flags = _
  rw [check_uk_patterns_flags, check_excessive_flags]
  rfl

theorem analyze_india_flags (parsed : ParsedResponse) :
    (analyze parsed (("India").toList)).flags =
      excessFlags parsed ++ indiaPatternFlags parsed.exemptions := by
  rw [analyze_india_eq]
  show (check_india_patterns parsed (check_excessive_withholding parsed {})).flags = _
  rw [check_india_patterns_flags, check_excessive_flags]
  rfl

theorem severityWeight_high_val : severityWeight (("high").toList) = (4 : ℚ)/10 := by
  norm_num [severityWeight, List.lookup]

theorem excessOnly_score (jurisdiction : Str)
    (h : jurisdiction = ("UK").toList ∨ jurisdiction = ("India").toList) :
    (analyze excessOnlyExample jurisdiction).risk_score = (2 : ℚ)/5 := by
  have hex : (check_excessive_withholding excessOnlyExample
      ({} : RedactionReport)).risk_score = (2 : ℚ)/5 := by
    norm_num [check_excessive_withholding, excessOnlyExample, add_flag_score,
      severityWeight, List.lookup, excessiveHighFlag_severity, min_def]
  rcases h with h | h <;> subst h
  · rw [analyze_uk_eq]
    show (check_uk_patterns excessOnlyExample
      (check_excessive_withholding excessOnlyExample {})).risk_score = _
    have huk : check_uk_patterns excessOnlyExample
        (check_excessive_withholding excessOnlyExample {}) =
        check_excessive_withholding excessOnlyExample {} := rfl
    rw [huk, hex]
  · rw [analyze_india_eq]
    show (check_india_patterns excessOnlyExample
      (check_excessive_withholding excessOnlyExample {})).risk_score = _
    have hin : check_india_patterns excessOnlyExample
        (check_excessive_withholding excessOnlyExample {}) =
        check_excessive_withholding excessOnlyExample {} := rfl
    rw [hin, hex]

/-- C10: under jurisdictions `UK` and `India`, `analyze` runs the
excessive-withholding page-ratio rule besides the exemption-pattern rules:
with a positive page total, a high-severity "Excessive Withholding" flag
appears exactly when withheld-full/(released + withheld-full) > 0.8 and a
medium-severity "High Withholding Rate" flag exactly when that ratio is in
(0.5, 0.8]; consequently a UK or India report can carry a nonzero risk score
with no exemption cited at all. -/
theorem c10_uk_india_page_ratio :
    ∀ (parsed : ParsedResponse) (jurisdiction : Str),
      (jurisdiction = ("UK").toList ∨ jurisdiction = ("India").toList) →
      (0 < parsed.pages_released + parsed.pages_withheld_full →
        (((analyze parsed jurisdiction).flags.any (fun f =>
            f.category == ("Excessive Withholding").toList &&
              f.severity == ("high").toList)) = true ↔
          (8 : ℚ)/10 < (parsed.pages_withheld_full : ℚ) /
            ((parsed.pages_released + parsed.pages_withheld_full : Nat) : ℚ)) ∧
        (((analyze parsed jurisdiction).flags.any (fun f =>
            f.category == ("High Withholding Rate").toList &&
              f.severity == ("medium").toList)) = true ↔
          ((5 : ℚ)/10 < (parsed.pages_withheld_full : ℚ) /
              ((parsed.pages_released + parsed.pages_withheld_full : Nat) : ℚ) ∧
            (parsed.pages_withheld_full : ℚ) /
              ((parsed.pages_released + parsed.pages_withheld_full : Nat) : ℚ) ≤
              (8 : ℚ)/10))) ∧
      ((analyze excessOnlyExample jurisdiction).risk_score = (2 : ℚ)/5 ∧
        excessOnlyExample.exemptions = []) := by
  intro parsed jurisdiction hjur
  refine ⟨?_, excessOnly_score jurisdiction hjur, rfl⟩
  intro htotal
  have hhi : ∀ rest, (∀ f : RedactionFlag, f ∈ rest →
      (f.category == ("Excessive Withholding").toList &&
        f.severity == ("high").toList) = false) →
      (((excessFlags parsed ++ rest).any (fun f =>
          f.category == ("Excessive Withholding").toList &&
            f.severity == ("high").toList)) = true ↔
        (8 : ℚ)/10 < (parsed.pages_withheld_full : ℚ) /
          ((parsed.pages_released + parsed.pages_withheld_full : Nat) : ℚ)) := by
    intro rest hrest
    have hrest2 : (rest.any (fun f =>
        f.category == ("Excessive Withholding").toList &&
          f.severity == ("high").toList)) = false := by
      rw [List.any_eq_false]
      intro f hf
      rw [hrest f hf]
      simp
    rw [List.any_append, hrest2, Bool.or_false]
    exact excessFlags_any_high parsed htotal
  have hmed : ∀ rest, (∀ f : RedactionFlag, f ∈ rest →
      (f.category == ("High Withholding Rate").toList &&
        f.severity == ("medium").toList) = false) →
      (((excessFlags parsed ++ rest).any (fun f =>
          f.category == ("High Withholding Rate").toList &&
            f.severity == ("medium").toList)) = true ↔
        ((5 : ℚ)/10 < (parsed.pages_withheld_full : ℚ) /
            ((parsed.pages_released + parsed.pages_withheld_full : Nat) : ℚ) ∧
          (parsed.pages_withheld_full : ℚ) /
            ((parsed.pages_released + parsed.pages_withheld_full : Nat) : ℚ) ≤
            (8 : ℚ)/10)) := by
    intro rest hrest
    have hrest2 : (rest.any (fun f =>
        f.category == ("High Withholding Rate").toList &&
          f.severity == ("medium").toList)) = false := by
      rw [List.any_eq_false]
      intro f hf
      rw [hrest f hf]
      simp
    rw [List.any_append, hrest2, Bool.or_false]
    exact excessFlags_any_medium parsed htotal
  rcases hjur with h | h <;> subst h
  · rw [analyze_uk_flags]
    constructor
    · refine hhi _ ?_
      intro f hf
      rcases ukPatternFlags_categories _ f hf with hc | hc <;>
        exact flag_pred_false_of_category_ne f _ _ _ hc (by decide)
    · refine hmed _ ?_
      intro f hf
      rcases ukPatternFlags_categories _ f hf with hc | hc <;>
        exact flag_pred_false_of_category_ne f _ _ _ hc (by decide)
  · rw [analyze_india_flags]
    constructor
    · refine hhi _ ?_
      intro f hf
      rcases indiaPatternFlags_categories _ f hf with hc | hc <;>
        exact flag_pred_false_of_category_ne f _ _ _ hc (by decide)
    · refine hmed _ ?_
      intro f hf
      rcases indiaPatternFlags_categories _ f hf with hc | hc <;>
        exact flag_pred_false_of_category_ne f _ _ _ hc (by decide)

/-- C10 witness: the page-ratio rule on `excessOnlyExample` under `UK`. -/
theorem c10_uk_india_page_ratio_witness :
    (0 < excessOnlyExample.pages_released + excessOnlyExample.pages_withheld_full →
      (((analyze excessOnlyExample (("UK").toList)).flags.any (fun f =>
          f.category == ("Excessive Withholding").toList &&
            f.severity == ("high").toList)) = true ↔
        (8 : ℚ)/10 < (excessOnlyExample.pages_withheld_full : ℚ) /
          ((excessOnlyExample.pages_released +
            excessOnlyExample.pages_withheld_full : Nat) : ℚ)) ∧
      (((analyze excessOnlyExample (("UK").toList)).flags.any (fun f =>
          f.category == ("High Withholding Rate").toList &&
            f.severity == ("medium").toList)) = true ↔
        ((5 : ℚ)/10 < (excessOnlyExample.pages_withheld_full : ℚ) /
            ((excessOnlyExample.pages_released +
              excessOnlyExample.pages_withheld_full : Nat) : ℚ) ∧
          (excessOnlyExample.pages_withheld_full : ℚ) /
            ((excessOnlyExample.pages_released +
              excessOnlyExample.pages_withheld_full : Nat) : ℚ) ≤
            (8 : ℚ)/10))) ∧
    ((analyze excessOnlyExample (("UK").toList)).risk_score = (2 : ℚ)/5 ∧
      excessOnlyExample.exemptions = []) :=
  c10_uk_india_page_ratio excessOnlyExample (("UK").toList) (Or.inl rfl)

theorem thresholdOf_URGENT : thresholdOf .URGENT = 2 := rfl

theorem thresholdOf_WARNING : thresholdOf .WARNING = 5 := rfl

theorem thresholdOf_INFO : thresholdOf .INFO = 10 := rfl

theorem check_request_of_no_deadline (today : Nat) (r : FOIARequest)
    (h : effectiveDeadline r = none) : check_request today r = none := by
  simp [check_request, days_until_deadline, h]

theorem check_request_of_deadline (today : Nat) (r : FOIARequest) (e : Nat)
    (he : effectiveDeadline r = some e) :
    check_request today r =
      (if (e : Int) - today < 0 then some (overdueAlert today r e)
       else if (e : Int) - today ≤ 2 then some (upcomingAlert today r e .URGENT)
       else if (e : Int) - today ≤ 5 then some (upcomingAlert today r e .WARNING)
       else if (e : Int) - today ≤ 10 then some (upcomingAlert today r e .INFO)
       else none) := by
  simp only [check_request, days_until_deadline, he, thresholdOf_URGENT,
    thresholdOf_WARNING, thresholdOf_INFO]
  by_cases h1 : (e : Int) - today < 0
  · rw [if_pos h1, if_pos h1]
  · rw [if_neg h1, if_neg h1]
    by_cases h2 : (e : Int) - today ≤ 2
    · rw [if_pos (by exact_mod_cast h2), if_pos h2]
    · rw [if_neg (by exact_mod_cast h2), if_neg h2]
      by_cases h3 : (e : Int) - today ≤ 5
      · rw [if_pos (by exact_mod_cast h3), if_pos h3]
      · rw [if_neg (by exact_mod_cast h3), if_neg h3]
        by_cases h4 : (e : Int) - today ≤ 10
        · rw [if_pos (by exact_mod_cast h4), if_pos h4]
        · rw [if_neg (by exact_mod_cast h4), if_neg h4]

theorem mem_list_requests_status (db : List FOIARequest) (st : RequestStatus)
    (r : FOIARequest) (h : db.length ≤ 10000) :
    r ∈ list_requests db none (some st) none 10000 0 ↔
      r ∈ db ∧ r.status = st := by
  rw [list_requests]
  simp only [List.drop_zero]
  rw [List.take_of_length_le]
  · rw [(List.perm_insertionSort _ _).mem_iff, List.mem_filter]
    simp
  · rw [(List.perm_insertionSort _ _).length_eq]
    exact le_trans (List.length_filter_le _ _) h

theorem mem_scannedRequests (db : List FOIARequest) (h : db.length ≤ 10000)
    (r : FOIARequest) :
    r ∈ scannedRequests db ↔ r ∈ db ∧ r.status ∈ active_statuses := by
  rw [scannedRequests, List.mem_flatMap]
  constructor
  · rintro ⟨st, hst, hr⟩
    obtain ⟨hdb, hstat⟩ := (mem_list_requests_status db st r h).mp hr
    exact ⟨hdb, hstat ▸ hst⟩
  · rintro ⟨hdb, hstat⟩
    exact ⟨r.status, hstat, (mem_list_requests_status db r.status r h).mpr ⟨hdb, rfl⟩⟩

/-- C4: `check_all` emits exactly one alert per scanned request whose check
fires; the scanned requests are exactly the stored ones in an active status
(`FILED, ACKNOWLEDGED, PROCESSING, EXTENDED, APPEALED`, for stores within the
10000-row query limit); a check fires exactly when the effective deadline is
set with at most 10 days remaining; and the alert's severity is `OVERDUE`
below 0 days, `URGENT` up to 2, `WARNING` up to 5, and `INFO` up to 10. -/
theorem c4_check_all_characterization :
    ∀ (today : Nat) (db : List FOIARequest),
      (∀ a, a ∈ check_all today db ↔
        ∃ r, r ∈ scannedRequests db ∧ check_request today r = some a) ∧
      (db.length ≤ 10000 → ∀ r, (r ∈ scannedRequests db ↔
        r ∈ db ∧ r.status ∈ active_statuses)) ∧
      (∀ r, (check_request today r).isSome = true ↔
        ∃ e, effectiveDeadline r = some e ∧ (e : Int) - today ≤ 10) ∧
      (∀ r e a, effectiveDeadline r = some e → check_request today r = some a →
        a.days_remaining = some ((e : Int) - today) ∧
        a.severity = (if (e : Int) - today < 0 then AlertSeverity.OVERDUE
          else if (e : Int) - today ≤ 2 then AlertSeverity.URGENT
          else if (e : Int) - today ≤ 5 then AlertSeverity.WARNING
          else AlertSeverity.INFO)) := by
  intro today db
  refine ⟨?_, fun h r => mem_scannedRequests db h r, ?_, ?_⟩
  · intro a
    rw [check_all, (List.perm_insertionSort _ _).mem_iff, List.mem_filterMap]
  · intro r
    rcases he : effectiveDeadline r with _ | e
    · rw [check_request_of_no_deadline today r he]
      simp
    · rw [check_request_of_deadline today r e he]
      split_ifs with h1 h2 h3 h4 <;> simp [he] <;> omega
  · intro r e a he ha
    rw [check_request_of_deadline today r e he] at ha
    split_ifs at ha with h1 h2 h3 h4 <;> simp only [Option.some.injEq] at ha <;>
      subst ha
    · exact ⟨rfl, by rw [if_pos h1]; rfl⟩
    · exact ⟨rfl, by rw [if_neg h1, if_pos h2]; rfl⟩
    · exact ⟨rfl, by rw [if_neg h1, if_neg h2, if_pos h3]; rfl⟩
    · exact ⟨rfl, by rw [if_neg h1, if_neg h2, if_neg h3]; rfl⟩

end FoiaRti